import Mathlib

/-!
# Dashboard controller (`client-linux/pmq/static/js/main.js`)

A shallow embedding of the browser-side controller.  The two module-level sets
(`selectedAccounts`, `runningAccountIds`), the DOM elements the script writes
and the form fields it reads are fields of one state record `St`.  Every
handler is a function `St → St`.  What a handler does to the outside world
(network requests, dialogs, console output, timers, handlers it starts without
awaiting them) is appended, in program order, to `St.log`.  The backend is a
record of answers, one per endpoint of the HTTP interface.  What the script
assigns to the `innerHTML` of a table row or of a status panel is kept as the
string it is, part by part (`Markup`): the text of the template and the values
substituted into it, which the script does not escape.  The status line of the
manual order is the concatenated string itself.
-/

set_option autoImplicit false

namespace Pms

/-! ## JavaScript values -/

/-- Account identifiers: integers in the JSON payloads. -/
abbrev AccountId := Int

/-- A JavaScript `Set` of account ids, as the list of its elements in insertion
order (the order in which `for … of` and `Array.from` visit them). -/
structure JSSet where
  elems : List AccountId
  deriving DecidableEq, Repr

namespace JSSet

/-- Builtin `new Set()`. -/
def empty : JSSet := ⟨[]⟩

/-- Builtin `s.has(x)`. -/
def has (s : JSSet) (x : AccountId) : Bool := decide (x ∈ s.elems)

/-- Builtin `s.add(x)`: a new element goes to the end, a present one stays where it is. -/
def add (s : JSSet) (x : AccountId) : JSSet :=
  if x ∈ s.elems then s else ⟨s.elems ++ [x]⟩

/-- Builtin `s.delete(x)`. -/
def delete (s : JSSet) (x : AccountId) : JSSet :=
  ⟨s.elems.filter (fun y => decide (y ≠ x))⟩

/-- Builtin `s.size`. -/
def size (s : JSSet) : Nat := s.elems.length

/-- Builtin `new Set(array)`: the elements are added one by one. -/
def ofArray (l : List AccountId) : JSSet := l.foldl add empty

end JSSet

/-- A JavaScript number, without the sign of zero (which no output of the
controller shows): not-a-number, an infinity, or a finite value. -/
inductive JSNumber where
  | nan
  | inf (negative : Bool)
  | fin (q : ℚ)
  deriving DecidableEq

/-- Template interpolation and `+` on a string field that may be absent. -/
def jsString : Option String → String
  | some s => s
  | none => "undefined"

/-- The idiom `value || fallback` on a string field: absent and empty are falsy. -/
def jsOr (value : Option String) (fallback : String) : String :=
  match value with
  | some s => if s = "" then fallback else s
  | none => fallback

/-- The idiom `count || 0` on a numeric field. -/
def jsOrZero : Option Nat → Nat
  | some n => n
  | none => 0

/-! ## Data model -/

/-- An account as the backend returns it. -/
structure Account where
  id : AccountId
  name : Option String
  proxy_wallet_address : Option String
  proxy_ip : Option String
  status : String
  balance_usdc : Option JSNumber
  private_key : Option String
  builder_api_key : Option String
  builder_api_secret : Option String
  builder_api_passphrase : Option String
  notes : Option String
  deriving DecidableEq

/-- The fields of the add-account and edit-account forms. -/
structure AccountData where
  name : String
  private_key : String
  proxy_wallet_address : String
  builder_api_key : String
  builder_api_secret : String
  builder_api_passphrase : String
  proxy_ip : String
  notes : String
  deriving DecidableEq

/-- The object `updateStrategyConfig` sends. -/
structure StrategyConfig where
  order_amount_usd : JSNumber
  price_percentage_threshold : JSNumber
  check_time_window_minutes : JSNumber
  monitor_interval : JSNumber
  deriving DecidableEq

/-! ## The HTTP interface -/

inductive Method where
  | GET | POST | PUT | DELETE
  deriving DecidableEq, Repr

/-- The URL templates of the script. -/
inductive Endpoint where
  | accounts
  | accountBalance (id : AccountId)
  | account (id : AccountId)
  | tasksStart (id : AccountId)
  | tasksStop (id : AccountId)
  | tasksRunning
  | schedulerStatus
  | startAutoMonitoring
  | redeemAll
  | sellAll
  | manualOrder
  | strategyConfig
  deriving DecidableEq

/-- The path an endpoint stands for. -/
def Endpoint.path : Endpoint → String
  | .accounts => "/api/accounts"
  | .accountBalance id => "/api/accounts/" ++ toString id ++ "/balance"
  | .account id => "/api/accounts/" ++ toString id
  | .tasksStart id => "/api/tasks/start/" ++ toString id
  | .tasksStop id => "/api/tasks/stop/" ++ toString id
  | .tasksRunning => "/api/tasks/running"
  | .schedulerStatus => "/api/tasks/scheduler_status"
  | .startAutoMonitoring => "/api/tasks/start_auto_monitoring"
  | .redeemAll => "/api/tasks/redeem_all"
  | .sellAll => "/api/tasks/sell_all"
  | .manualOrder => "/api/tasks/manual_order"
  | .strategyConfig => "/api/strategy/config"

/-- The object given to `JSON.stringify` for a request body. -/
inductive Body where
  | account (data : AccountData)
  | manualOrder (market_url : String) (account_ids : List AccountId) (side : String)
  | strategyConfig (config : StrategyConfig)
  deriving DecidableEq

structure Request where
  method : Method
  endpoint : Endpoint
  body : Option Body
  deriving DecidableEq

/-- What `await fetch(…)` followed by `await response.json()` gives: the parsed
result, or a thrown error (network failure, body that is not JSON) with its
`message`. -/
inductive Outcome (α : Type) where
  | ok (result : α)
  | error (message : String)

/-- Response `{success, message}`. -/
structure ApiResult where
  success : Bool
  message : Option String

/-- Response `{success, data: Account[]}`. -/
structure AccountsResult where
  success : Bool
  data : Option (List Account)

/-- Response `{success, balance, message}`. -/
structure BalanceResult where
  success : Bool
  balance : Option JSNumber
  message : Option String

/-- Response `{success, data: AccountId[]}`. -/
structure RunningResult where
  success : Bool
  data : Option (List AccountId)

/-- The `data` object of the scheduler status. -/
structure SchedulerData where
  running : Bool
  running_accounts : Option (List AccountId)

/-- Response `{success, data: {running, running_accounts}}`. -/
structure SchedulerResult where
  success : Bool
  data : Option SchedulerData

/-- Response `{success, message, sold_count, failed_count}`. -/
structure SellAllResult where
  success : Bool
  message : Option String
  sold_count : Option Nat
  failed_count : Option Nat

/-- Response `{success, message, success_count, fail_count}`. -/
structure ManualOrderResult where
  success : Bool
  message : Option String
  success_count : Option Nat
  fail_count : Option Nat

/-- The backend as the controller sees it during one handler run: the outcome
of each request the handler can issue. -/
structure Backend where
  getAccounts : Outcome AccountsResult
  getBalance : AccountId → Outcome BalanceResult
  postAccount : AccountData → Outcome ApiResult
  putAccount : AccountId → AccountData → Outcome ApiResult
  deleteAccount : AccountId → Outcome ApiResult
  tasksStart : AccountId → Outcome ApiResult
  tasksStop : AccountId → Outcome ApiResult
  tasksRunning : Outcome RunningResult
  schedulerStatus : Outcome SchedulerResult
  startAutoMonitoring : Outcome ApiResult
  redeemAll : Outcome ApiResult
  sellAll : Outcome SellAllResult
  manualOrder : String → List AccountId → String → Outcome ManualOrderResult
  strategyConfig : StrategyConfig → Outcome ApiResult

/-! ## The page -/

/-- A value substituted into a template literal, before its conversion to a
string: a string, an integer, any other number, or a member that an object
literal inherits from `Object.prototype` (found by a lookup with that key). -/
inductive Value where
  | str (s : String)
  | int (i : Int)
  | num (n : JSNumber)
  | inherited (key : String)
  deriving DecidableEq

/-- One part of the string a template literal evaluates to: text that the
script itself writes (a literal part, or a constant the script chooses), or a
value that comes with the data and is inserted as it is, without escaping. -/
inductive Chunk where
  | text (s : String)
  | value (v : Value)
  deriving DecidableEq

/-- The string assigned to an `innerHTML`, as the sequence of its parts. -/
abbrev Markup := List Chunk

/-- The conversions to a string that the engine performs: of a number, and of a
member inherited from `Object.prototype`. -/
structure Runtime where
  numberToString : JSNumber → String
  inheritedToString : String → String

/-- The string a substituted value is converted to. -/
def Value.toText (rt : Runtime) : Value → String
  | .str s => s
  | .int i => toString i
  | .num n => rt.numberToString n
  | .inherited key => rt.inheritedToString key

/-- The string of one part. -/
def Chunk.toText (rt : Runtime) : Chunk → String
  | .text s => s
  | .value v => v.toText rt

/-- The string that reaches `innerHTML`: the parts joined. -/
def Markup.html (rt : Runtime) (m : Markup) : String :=
  String.join (m.map (Chunk.toText rt))

/-- Text put into an element: a string, or a number converted by the DOM. -/
inductive Text where
  | str (s : String)
  | num (n : JSNumber)
  deriving DecidableEq

/-- The functions of the script that are started without `await`. -/
inductive Handler where
  | loadAccounts
  | loadRunningStatus
  deriving DecidableEq, Repr

/-- The functions the script hands to `setTimeout`: the one arrow function of
`manualPlaceOrder`, which empties the inline status. -/
inductive Callback where
  | clearManualOrderStatus
  deriving DecidableEq, Repr

/-- Observable effects, in program order. -/
inductive Ev where
  | fetch (req : Request)
  | alert (msg : String)
  | confirm (msg : String)
  | consoleError (label : String) (error : String)
  | call (h : Handler)
  | setTimeout (callback : Callback) (ms : Nat)
  deriving DecidableEq

/-- The two modals of the page. -/
inductive ModalId where
  | addAccountModal
  | editAccountModal
  deriving DecidableEq, Repr

/-- The strategy form: the numbers `parseFloat` / `parseInt` return for the
four fields. -/
structure StrategyForm where
  orderAmount : JSNumber
  priceThreshold : JSNumber
  timeWindow : JSNumber
  monitorInterval : JSNumber
  deriving DecidableEq

/-- State of the controller and of the page elements it reads and writes. -/
structure St where
  selectedAccounts : JSSet
  runningAccountIds : JSSet
  accountsTableBody : List Markup
  balanceWrites : List (AccountId × Text)
  selectedAccountsCount : Nat
  marketUrl : String
  orderSide : Option String
  manualOrderStatus : String
  runningStatus : Markup
  schedulerStatus : Option Markup
  addAccountModal : String
  editAccountModal : String
  addAccountForm : AccountData
  editAccountId : AccountId
  editAccountForm : AccountData
  strategyForm : StrategyForm
  log : List Ev

namespace St

def emit (st : St) (e : Ev) : St := { st with log := st.log ++ [e] }

/-- Issue a request. -/
def fetch (st : St) (method : Method) (endpoint : Endpoint) (body : Option Body) : St :=
  st.emit (.fetch ⟨method, endpoint, body⟩)

def alert (st : St) (msg : String) : St := st.emit (.alert msg)

def consoleError (st : St) (label error : String) : St := st.emit (.consoleError label error)

/-- A call of an `async` function whose promise is dropped. -/
def call (st : St) (h : Handler) : St := st.emit (.call h)

/-- The statement `if (balanceSpan) balanceSpan.textContent = text` for the
element with id `balance-accountId`, which `refreshBalance` looks up once when
it starts: the assignment is recorded; it reaches the page when the document
held such an element at that moment. -/
def setBalanceText (st : St) (accountId : AccountId) (text : Text) : St :=
  { st with balanceWrites := st.balanceWrites ++ [(accountId, text)] }

/-- The effects a run added to the log of `before`. -/
def newEvents (before after : St) : List Ev := after.log.drop before.log.length

end St

/-! ## Builtins of the runtime the handlers use -/

/-- White space and line terminators of ECMAScript, the characters
`String.prototype.trim` removes. -/
def isJSWhiteSpace (c : Char) : Bool :=
  let n := c.toNat
  n == 0x9 || n == 0xA || n == 0xB || n == 0xC || n == 0xD || n == 0x20 || n == 0xA0 ||
  n == 0x1680 || (0x2000 ≤ n && n ≤ 0x200A) || n == 0x2028 || n == 0x2029 || n == 0x202F ||
  n == 0x205F || n == 0x3000 || n == 0xFEFF

/-- Builtin `s.trim()`. -/
def jsTrim (s : String) : String :=
  String.mk ((s.data.dropWhile isJSWhiteSpace).reverse.dropWhile isJSWhiteSpace).reverse

/-- Floor of the binary logarithm of `n / d`, for positive `n` and `d`. -/
def floorLog2 (n d : Nat) : Int :=
  let k : Int := (Nat.log2 n : Int) - (Nat.log2 d : Int)
  if d * 2 ^ k.toNat ≤ n * 2 ^ (-k).toNat then k else k - 1

/-- Nearest integer to `n / d`, ties to even. -/
def roundHalfEven (n d : Nat) : Nat :=
  let q := n / d
  let r := n % d
  if 2 * r < d then q
  else if d < 2 * r then q + 1
  else if q % 2 = 0 then q else q + 1

/-- Rounding of a real result to a double (binary64, round to nearest, ties to
even, gradual underflow, overflow to an infinity). -/
def roundDouble (q : ℚ) : JSNumber :=
  if q = 0 then .fin 0
  else
    let n := q.num.natAbs
    let d := q.den
    let e : Int := max (floorLog2 n d - 52) (-1074)
    let m := roundHalfEven (n * 2 ^ (-e).toNat) (d * 2 ^ e.toNat)
    let v : ℚ := (m : ℚ) * (2 : ℚ) ^ e
    if (2 : ℚ) ^ (1024 : Nat) ≤ v then .inf (decide (q < 0))
    else .fin (if q < 0 then -v else v)

/-- The operator `/` on numbers. -/
def jsDiv : JSNumber → JSNumber → JSNumber
  | .nan, _ => .nan
  | _, .nan => .nan
  | .inf _, .inf _ => .nan
  | .inf s, .fin q => .inf (s != decide (q < 0))
  | .fin _, .inf _ => .fin 0
  | .fin a, .fin b =>
    if b = 0 then (if a = 0 then .nan else .inf (decide (a < 0)))
    else roundDouble (a / b)

/-- The `message` of the `TypeError` thrown when a method or property of
`undefined` is used. -/
def typeErrorMessage : String := "TypeError"

/-! ## Handlers -/

/-- Function `checkAccountRunning`. -/
def checkAccountRunning (st : St) (accountId : AccountId) : Bool :=
  st.runningAccountIds.has accountId

/-- The continuation of `startAccountSilent` after its request: the outcome is
consumed, the request itself was issued before. -/
def startAccountSilentResume (b : Backend) (accountId : AccountId) (st : St) : St :=
  match b.tasksStart accountId with
  | .ok result =>
    if result.success then
      { st with runningAccountIds := st.runningAccountIds.add accountId }
    else st
  | .error error => st.consoleError ("启动账号 " ++ toString accountId ++ " 失败:") error

/-- Function `startAccountSilent`. -/
def startAccountSilent (b : Backend) (accountId : AccountId) (st : St) : St :=
  startAccountSilentResume b accountId (st.fetch .POST (.tasksStart accountId) none)

/-- The continuation of `stopAccountSilent` after its request. -/
def stopAccountSilentResume (b : Backend) (accountId : AccountId) (st : St) : St :=
  match b.tasksStop accountId with
  | .ok result =>
    if result.success then
      { st with runningAccountIds := st.runningAccountIds.delete accountId }
    else st
  | .error error => st.consoleError ("停止账号 " ++ toString accountId ++ " 失败:") error

/-- Function `stopAccountSilent`. -/
def stopAccountSilent (b : Backend) (accountId : AccountId) (st : St) : St :=
  stopAccountSilentResume b accountId (st.fetch .POST (.tasksStop accountId) none)

/-- Function `startAccount`. -/
def startAccount (b : Backend) (accountId : AccountId) (st : St) : St :=
  let st := st.fetch .POST (.tasksStart accountId) none
  match b.tasksStart accountId with
  | .ok result =>
    if result.success then
      let st := st.alert "账号启动成功"
      let st := { st with runningAccountIds := st.runningAccountIds.add accountId }
      let st := st.call .loadAccounts
      st.call .loadRunningStatus
    else
      st.alert ("启动失败: " ++ jsString result.message)
  | .error error =>
    let st := st.consoleError "启动账号失败:" error
    st.alert ("启动失败: " ++ error)

/-- Function `stopAccount`. -/
def stopAccount (b : Backend) (accountId : AccountId) (st : St) : St :=
  let st := st.fetch .POST (.tasksStop accountId) none
  match b.tasksStop accountId with
  | .ok result =>
    if result.success then
      let st := st.alert "账号停止成功"
      let st := { st with runningAccountIds := st.runningAccountIds.delete accountId }
      let st := st.call .loadAccounts
      st.call .loadRunningStatus
    else
      st.alert ("停止失败: " ++ jsString result.message)
  | .error error =>
    let st := st.consoleError "停止账号失败:" error
    st.alert ("停止失败: " ++ error)

/-- The names an object literal inherits from `Object.prototype`. -/
def objectPrototypeKeys : List String :=
  ["constructor", "__defineGetter__", "__defineSetter__", "hasOwnProperty", "__lookupGetter__",
    "__lookupSetter__", "isPrototypeOf", "propertyIsEnumerable", "toString", "valueOf",
    "__proto__", "toLocaleString"]

/-- Function `getStatusText`: `statusMap[status] || status`.  The lookup finds
the three entries of the map and, for a status that is a name inherited from
`Object.prototype`, that member, which is truthy. -/
def getStatusText (status : String) : Value :=
  if status = "active" then .str "活跃"
  else if status = "paused" then .str "暂停"
  else if status = "error" then .str "错误"
  else if status ∈ objectPrototypeKeys then .inherited status
  else .str status

/-- Function `updateSelectedCount`. -/
def updateSelectedCount (st : St) : St :=
  { st with selectedAccountsCount := st.selectedAccounts.size }

/-- The template literal assigned to `tr.innerHTML` in `renderAccountsTable`,
part by part: one part for each literal piece and one for each substitution. -/
def renderRow (st : St) (account : Account) : Markup :=
  let isSelected := st.selectedAccounts.has account.id
  let isRunning := checkAccountRunning st account.id
  let balanceText : Chunk :=
    match account.balance_usdc with
    | some balance => .value (.num balance)
    | none => .text "未知"
  [ .text "\n            <td><input type=\"checkbox\" ",
    .text (if isSelected then "checked" else ""),
    .text " \n                onchange=\"toggleAccountSelection(",
    .value (.int account.id),
    .text ", this.checked)\"></td>\n            <td>",
    .value (.int account.id),
    .text "</td>\n            <td>",
    .value (.str (jsString account.name)),
    .text "</td>\n            <td>",
    .value (.str (jsOr account.proxy_wallet_address "未设置")),
    .text "</td>\n            <td>",
    .value (.str (jsOr account.proxy_ip "无代理")),
    .text "</td>\n            <td>\n                <span id=\"balance-",
    .value (.int account.id),
    .text "\">",
    balanceText,
    .text "</span>\n                <button class=\"btn btn-sm btn-secondary\" style=\"margin-left:6px\" onclick=\"refreshBalance(",
    .value (.int account.id),
    .text ")\">刷新</button>\n            </td>\n            <td><span class=\"status-badge status-",
    .value (.str account.status),
    .text "\">",
    .value (getStatusText account.status),
    .text "</span></td>\n            <td>\n                <button class=\"btn btn-sm ",
    .text (if isRunning then "btn-danger" else "btn-success"),
    .text "\" \n                    onclick=\"",
    .text (if isRunning then "stopAccount" else "startAccount"),
    .text "(",
    .value (.int account.id),
    .text ")\">\n                    ",
    .text (if isRunning then "停止" else "启动"),
    .text "\n                </button>\n                <button class=\"btn btn-sm btn-secondary\" onclick=\"editAccount(",
    .value (.int account.id),
    .text ")\">编辑</button>\n                <button class=\"btn btn-sm btn-danger\" onclick=\"deleteAccount(",
    .value (.int account.id),
    .text ")\">删除</button>\n            </td>\n        " ]

/-- Function `renderAccountsTable`: the table body is emptied and one row per account
appended. -/
def renderAccountsTable (accounts : List Account) (st : St) : St :=
  let st := { st with accountsTableBody := [] }
  let st := accounts.foldl
    (fun st account => { st with accountsTableBody := st.accountsTableBody ++ [renderRow st account] }) st
  updateSelectedCount st

/-- Function `loadAccounts`.  A successful response without `data` makes
`renderAccountsTable` throw after it has emptied the table. -/
def loadAccounts (b : Backend) (st : St) : St :=
  let st := st.fetch .GET .accounts none
  match b.getAccounts with
  | .ok result =>
    if result.success then
      match result.data with
      | some accounts => renderAccountsTable accounts st
      | none => ({ st with accountsTableBody := [] }).consoleError "加载账号失败:" typeErrorMessage
    else st
  | .error error => st.consoleError "加载账号失败:" error

/-- Function `refreshBalance`. -/
def refreshBalance (b : Backend) (accountId : AccountId) (st : St) : St :=
  let st := st.setBalanceText accountId (.str "刷新中...")
  let st := st.fetch .GET (.accountBalance accountId) none
  match b.getBalance accountId with
  | .ok result =>
    if result.success then
      let balance : Text :=
        match result.balance with
        | some v => .num v
        | none => .str "未知"
      let st := st.setBalanceText accountId balance
      st.call .loadAccounts
    else
      let st := st.setBalanceText accountId (.str "失败")
      st.alert ("刷新余额失败: " ++ jsString result.message)
  | .error error =>
    let st := st.setBalanceText accountId (.str "失败")
    let st := st.consoleError "刷新余额失败:" error
    st.alert ("刷新余额失败: " ++ error)

/-- Function `toggleAccountSelection`. -/
def toggleAccountSelection (accountId : AccountId) (checked : Bool) (st : St) : St :=
  let st :=
    if checked then { st with selectedAccounts := st.selectedAccounts.add accountId }
    else { st with selectedAccounts := st.selectedAccounts.delete accountId }
  updateSelectedCount st

/-- Function `startSelectedAccounts`.  The loop calls `startAccountSilent` for every
selected id, which issues that id's request at once; `Promise.all` then waits
for the continuations, which run in the order `arrival` in which the responses
come in (a permutation of the selection). -/
def startSelectedAccounts (b : Backend) (arrival : List AccountId) (st : St) : St :=
  if st.selectedAccounts.size = 0 then
    st.alert "请先在账户列表中勾选要启动的账号"
  else
    let st := st.selectedAccounts.elems.foldl
      (fun st accountId => st.fetch .POST (.tasksStart accountId) none) st
    let st := arrival.foldl (fun st accountId => startAccountSilentResume b accountId st) st
    let st := st.fetch .POST .startAutoMonitoring none
    let st :=
      match b.startAutoMonitoring with
      | .ok result =>
        if result.success then
          st.alert ("已启动 " ++ toString st.selectedAccounts.size ++ " 个账号的自动监控")
        else
          st.alert ("启动自动监控失败: " ++ jsString result.message)
      | .error error =>
        let st := st.consoleError "启动自动监控失败:" error
        st.alert ("启动自动监控失败: " ++ error)
    let st := st.call .loadAccounts
    st.call .loadRunningStatus

/-- Function `stopSelectedAccounts`, with the same reading of `Promise.all`. -/
def stopSelectedAccounts (b : Backend) (arrival : List AccountId) (st : St) : St :=
  if st.selectedAccounts.size = 0 then
    st.alert "请先在账户列表中勾选要停止的账号"
  else
    let st := st.selectedAccounts.elems.foldl
      (fun st accountId => st.fetch .POST (.tasksStop accountId) none) st
    let st := arrival.foldl (fun st accountId => stopAccountSilentResume b accountId st) st
    let st := st.call .loadAccounts
    st.call .loadRunningStatus

/-- Function `updateRunningAccounts`. -/
def updateRunningAccounts (b : Backend) (st : St) : St :=
  let st := st.fetch .GET .tasksRunning none
  match b.tasksRunning with
  | .ok result =>
    if result.success then
      { st with runningAccountIds := JSSet.ofArray (result.data.getD []) }
    else st
  | .error error => st.consoleError "更新运行账号列表失败:" error

/-- Function `redeemAllAccounts`. -/
def redeemAllAccounts (b : Backend) (st : St) : St :=
  let st := st.fetch .POST .redeemAll none
  match b.redeemAll with
  | .ok result =>
    if result.success then st.alert "已触发所有运行账号的索取，请查看日志"
    else st.alert ("索取失败: " ++ jsString result.message)
  | .error error =>
    let st := st.consoleError "一键索取失败:" error
    st.alert ("索取失败: " ++ error)

/-- Function `sellAllAccounts`; `confirmed` is the answer of the user to the prompt. -/
def sellAllAccounts (b : Backend) (confirmed : Bool) (st : St) : St :=
  let st := st.emit (.confirm "确定要出售所有运行账号的持仓吗？这将立即卖出所有持仓，不等结算。")
  if !confirmed then st
  else
    let st := st.fetch .POST .sellAll none
    match b.sellAll with
    | .ok result =>
      if result.success then
        let message := jsOr result.message
          ("已触发出售，成功: " ++ toString (jsOrZero result.sold_count) ++ ", 失败: " ++
            toString (jsOrZero result.failed_count))
        st.alert (message ++ "\n请查看日志了解详细信息")
      else st.alert ("出售失败: " ++ jsString result.message)
    | .error error =>
      let st := st.consoleError "一键出售失败:" error
      st.alert ("出售失败: " ++ error)

/-- The `<span>` the manual-order handler writes into its status element. -/
def statusSpan (color text : String) : String :=
  "<span style=\"color: " ++ color ++ ";\">" ++ text ++ "</span>"

/-- Function `manualPlaceOrder`; `confirmed` is the answer of the user to the prompt. -/
def manualPlaceOrder (b : Backend) (confirmed : Bool) (st : St) : St :=
  let marketUrl := jsTrim st.marketUrl
  if st.selectedAccounts.size = 0 then
    { st with manualOrderStatus := statusSpan "red" "请先选择要下单的账号" }
  else
    match st.orderSide with
    | none => { st with manualOrderStatus := statusSpan "red" "请选择下单方向（YES/NO）" }
    | some side =>
      let sideLabel := if side = "YES" then "YES/UP (绿色)" else "NO/DOWN (红色)"
      let st := st.emit (.confirm ("确定要为 " ++ toString st.selectedAccounts.size ++
        " 个选中的账号手动下单 " ++ sideLabel ++ " 吗？"))
      if !confirmed then st
      else
        let st := { st with manualOrderStatus := statusSpan "blue" "正在下单，请稍候..." }
        let account_ids := st.selectedAccounts.elems
        let st := st.fetch .POST .manualOrder (some (.manualOrder marketUrl account_ids side))
        match b.manualOrder marketUrl account_ids side with
        | .ok result =>
          if result.success then
            let message := jsOr result.message
              ("手动下单完成，成功: " ++ toString (jsOrZero result.success_count) ++ ", 失败: " ++
                toString (jsOrZero result.fail_count))
            let st := { st with manualOrderStatus := statusSpan "green" message }
            st.emit (.setTimeout .clearManualOrderStatus 5000)
          else
            { st with manualOrderStatus := statusSpan "red" ("下单失败: " ++ jsString result.message) }
        | .error error =>
          let st := st.consoleError "手动下单失败:" error
          { st with manualOrderStatus := statusSpan "red" ("下单失败: " ++ error) }

/-- The callback `manualPlaceOrder` gives to `setTimeout`. -/
def clearStatusTimeout (st : St) : St := { st with manualOrderStatus := "" }

/-- What a callback does when its timer fires. -/
def Callback.run : Callback → St → St
  | .clearManualOrderStatus => clearStatusTimeout

/-- Function `clearMarketUrl`. -/
def clearMarketUrl (st : St) : St := { st with marketUrl := "", manualOrderStatus := "" }

/-- Function `deleteAccount`; `confirmed` is the answer of the user to the prompt. -/
def deleteAccount (b : Backend) (confirmed : Bool) (accountId : AccountId) (st : St) : St :=
  let st := st.emit (.confirm "确定要删除这个账号吗？")
  if !confirmed then st
  else
    let st := st.fetch .DELETE (.account accountId) none
    match b.deleteAccount accountId with
    | .ok result =>
      if result.success then
        let st := st.alert "删除成功"
        let st := { st with selectedAccounts := st.selectedAccounts.delete accountId }
        st.call .loadAccounts
      else st.alert ("删除失败: " ++ jsString result.message)
    | .error error =>
      let st := st.consoleError "删除账号失败:" error
      st.alert ("删除失败: " ++ error)

/-- The add-account form after `reset()`. -/
def AccountData.blank : AccountData := ⟨"", "", "", "", "", "", "", ""⟩

/-- Function `showAddAccountModal`. -/
def showAddAccountModal (st : St) : St :=
  { st with addAccountModal := "block", addAccountForm := AccountData.blank }

/-- Function `closeModal`. -/
def closeModal (modalId : ModalId) (st : St) : St :=
  match modalId with
  | .addAccountModal => { st with addAccountModal := "none" }
  | .editAccountModal => { st with editAccountModal := "none" }

/-- The `submit` listener of the add-account form. -/
def submitAddAccountForm (b : Backend) (st : St) : St :=
  let accountData := st.addAccountForm
  let st := st.fetch .POST .accounts (some (.account accountData))
  match b.postAccount accountData with
  | .ok result =>
    if result.success then
      let st := st.alert "账号添加成功"
      let st := closeModal .addAccountModal st
      st.call .loadAccounts
    else st.alert ("添加失败: " ++ jsString result.message)
  | .error error =>
    let st := st.consoleError "添加账号失败:" error
    st.alert ("添加失败: " ++ error)

/-- The object `updateStrategyConfig` builds from the form. -/
def strategyConfigOfForm (f : StrategyForm) : StrategyConfig :=
  { order_amount_usd := f.orderAmount
    price_percentage_threshold := jsDiv f.priceThreshold (.fin 100)
    check_time_window_minutes := f.timeWindow
    monitor_interval := f.monitorInterval }

/-- Function `updateStrategyConfig`. -/
def updateStrategyConfig (b : Backend) (st : St) : St :=
  let config := strategyConfigOfForm st.strategyForm
  let st := st.fetch .PUT .strategyConfig (some (.strategyConfig config))
  match b.strategyConfig config with
  | .ok result =>
    if result.success then st.alert "策略配置更新成功"
    else st.alert ("更新失败: " ++ jsString result.message)
  | .error error =>
    let st := st.consoleError "更新策略配置失败:" error
    st.alert ("更新失败: " ++ error)

/-- The address shown for an account in the running-status panel. -/
def accountAddress (account : Account) : String :=
  jsOr account.proxy_wallet_address
    (match account.private_key with
     | some key => if key = "" then "未设置" else "0x" ++ key.takeRight 8
     | none => "未设置")

/-- The template literal `loadRunningStatus` appends for a running id, part by
part. -/
def runningItem (allAccounts : List Account) (accountId : AccountId) : Markup :=
  let account := allAccounts.find? (fun acc => decide (acc.id = accountId))
  let accountName :=
    match account with
    | some acc => jsOr acc.name "未命名"
    | none => "账号" ++ toString accountId
  let accountAddress :=
    match account with
    | some acc => accountAddress acc
    | none => "未知"
  [ .text "\n                            <div class=\"running-account-item\">\n                                <div class=\"account-info\">\n                                    <strong>账号 ",
    .value (.int accountId),
    .text ": ",
    .value (.str accountName),
    .text "</strong>\n                                    <span class=\"account-address\">",
    .value (.str accountAddress),
    .text "</span>\n                                </div>\n                                <div class=\"account-actions\">\n                                    <button class=\"btn btn-sm btn-danger\" onclick=\"stopAccount(",
    .value (.int accountId),
    .text ")\">停止</button>\n                                </div>\n                            </div>\n                        " ]

/-- The template literal `loadRunningStatus` appends for an account offered for
a quick start, part by part. -/
def stoppedItem (account : Account) : Markup :=
  [ .text "\n                            <div class=\"running-account-item\" style=\"border-left-color: #6c757d; opacity: 0.8;\">\n                                <div class=\"account-info\">\n                                    <strong>账号 ",
    .value (.int account.id),
    .text ": ",
    .value (.str (jsOr account.name "未命名")),
    .text "</strong>\n                                    <span class=\"account-address\">",
    .value (.str (accountAddress account)),
    .text "</span>\n                                </div>\n                                <div class=\"account-actions\">\n                                    <button class=\"btn btn-sm btn-success\" onclick=\"startAccount(",
    .value (.int account.id),
    .text ")\">启动</button>\n                                </div>\n                            </div>\n                        " ]

/-- The string `loadRunningStatus` assigns to the `innerHTML` of the panel,
built from the running ids and the account list. -/
def runningStatusPanel (runningIds : List AccountId) (allAccounts : List Account) : Markup :=
  if 0 < runningIds.length ∨ 0 < allAccounts.length then
    let html : Markup := [.text "<div class=\"running-accounts-list\">"]
    let html :=
      if 0 < runningIds.length then
        runningIds.foldl (fun html accountId => html ++ runningItem allAccounts accountId) html
      else html
    let stoppedAccounts :=
      (allAccounts.filter (fun acc => !(runningIds.contains acc.id))).take 5
    let html :=
      if 0 < stoppedAccounts.length ∧ runningIds.length = 0 then
        stoppedAccounts.foldl (fun html account => html ++ stoppedItem account) html
      else html
    html ++ [.text "</div>"]
  else [.text "<p>当前没有账号，请先添加账号</p>"]

/-- Function `loadRunningStatus`.  When the account list is reported successful without
`data`, using it throws; the catch leaves the panel as it was. -/
def loadRunningStatus (b : Backend) (st : St) : St :=
  let st := st.fetch .GET .tasksRunning none
  match b.tasksRunning with
  | .ok result =>
    if result.success then
      let runningIds := result.data.getD []
      let st := { st with runningAccountIds := JSSet.ofArray runningIds }
      let st := st.fetch .GET .accounts none
      match b.getAccounts with
      | .ok accountsResult =>
        match (if accountsResult.success then accountsResult.data else some []) with
        | some allAccounts => { st with runningStatus := runningStatusPanel runningIds allAccounts }
        | none => st.consoleError "加载运行状态失败:" typeErrorMessage
      | .error error => st.consoleError "加载运行状态失败:" error
    else st
  | .error error => st.consoleError "加载运行状态失败:" error

/-- Function `updateSchedulerStatus`. -/
def updateSchedulerStatus (b : Backend) (st : St) : St :=
  let st := st.fetch .GET .schedulerStatus none
  match b.schedulerStatus with
  | .ok result =>
    if !result.success then st
    else
      let running := match result.data with
        | some data => data.running
        | none => false
      let runningAccounts := match result.data with
        | some data => data.running_accounts.getD []
        | none => []
      match st.schedulerStatus with
      | none => st
      | some _ =>
        let statusText := if running then "运行中" else "已停止"
        let statusClass := if running then "status-running" else "status-stopped"
        let accountsText : Markup :=
          if 0 < runningAccounts.length then
            .text "当前运行账号: " ::
              (runningAccounts.map fun id => Chunk.value (.int id)).intersperse (.text ", ")
          else [.text "当前无运行账号"]
        { st with schedulerStatus := some (
            [ .text "\n            <div class=\"scheduler-status-row\">\n                <span class=\"scheduler-label\">调度线程状态:</span>\n                <span class=\"scheduler-value ",
              .text statusClass,
              .text "\">[调度] ",
              .text statusText,
              .text "</span>\n                <span class=\"scheduler-accounts\">" ] ++
            accountsText ++
            [ .text "</span>\n            </div>\n        " ]) }
  | .error error => st.consoleError "更新调度线程状态失败:" error

/-- Function `editAccount`. -/
def editAccount (b : Backend) (accountId : AccountId) (st : St) : St :=
  let st := st.fetch .GET .accounts none
  match b.getAccounts with
  | .ok result =>
    if !result.success then st.alert "获取账号信息失败"
    else
      match result.data with
      | none =>
        let st := st.consoleError "加载账号信息失败:" typeErrorMessage
        st.alert ("加载账号信息失败: " ++ typeErrorMessage)
      | some data =>
        match data.find? (fun acc => decide (acc.id = accountId)) with
        | none => st.alert "账号不存在"
        | some account =>
          { st with
            editAccountId := account.id
            editAccountForm :=
              { name := jsOr account.name ""
                private_key := jsOr account.private_key ""
                proxy_wallet_address := jsOr account.proxy_wallet_address ""
                builder_api_key := jsOr account.builder_api_key ""
                builder_api_secret := jsOr account.builder_api_secret ""
                builder_api_passphrase := jsOr account.builder_api_passphrase ""
                proxy_ip := jsOr account.proxy_ip ""
                notes := jsOr account.notes "" }
            editAccountModal := "block" }
  | .error error =>
    let st := st.consoleError "加载账号信息失败:" error
    st.alert ("加载账号信息失败: " ++ error)

/-- The `submit` listener of the edit-account form.  The hidden id field holds
the id `editAccount` wrote into it, which `parseInt` reads back. -/
def submitEditAccountForm (b : Backend) (st : St) : St :=
  let accountId := st.editAccountId
  let accountData := st.editAccountForm
  let st := st.fetch .PUT (.account accountId) (some (.account accountData))
  match b.putAccount accountId accountData with
  | .ok result =>
    if result.success then
      let st := st.alert "账号更新成功"
      let st := closeModal .editAccountModal st
      st.call .loadAccounts
    else st.alert ("更新失败: " ++ jsString result.message)
  | .error error =>
    let st := st.consoleError "更新账号失败:" error
    st.alert ("更新失败: " ++ error)

/-! ## Entry points -/

/-- The functions of the script, each with the inputs of one run: arguments,
the answer of the user to a prompt, the order in which the responses of a
fan-out come in. -/
inductive Action where
  | loadAccounts
  | renderAccountsTable (accounts : List Account)
  | refreshBalance (accountId : AccountId)
  | toggleAccountSelection (accountId : AccountId) (checked : Bool)
  | updateSelectedCount
  | startSelectedAccounts (arrival : List AccountId)
  | stopSelectedAccounts (arrival : List AccountId)
  | startAccountSilent (accountId : AccountId)
  | stopAccountSilent (accountId : AccountId)
  | updateRunningAccounts
  | startAccount (accountId : AccountId)
  | stopAccount (accountId : AccountId)
  | redeemAllAccounts
  | sellAllAccounts (confirmed : Bool)
  | manualPlaceOrder (confirmed : Bool)
  | clearStatusTimeout
  | clearMarketUrl
  | deleteAccount (confirmed : Bool) (accountId : AccountId)
  | showAddAccountModal
  | closeModal (modalId : ModalId)
  | submitAddAccountForm
  | updateStrategyConfig
  | loadRunningStatus
  | updateSchedulerStatus
  | editAccount (accountId : AccountId)
  | submitEditAccountForm

/-- One run of a function of the script. -/
def perform (b : Backend) : Action → St → St
  | .loadAccounts => loadAccounts b
  | .renderAccountsTable accounts => renderAccountsTable accounts
  | .refreshBalance accountId => refreshBalance b accountId
  | .toggleAccountSelection accountId checked => toggleAccountSelection accountId checked
  | .updateSelectedCount => updateSelectedCount
  | .startSelectedAccounts arrival => startSelectedAccounts b arrival
  | .stopSelectedAccounts arrival => stopSelectedAccounts b arrival
  | .startAccountSilent accountId => startAccountSilent b accountId
  | .stopAccountSilent accountId => stopAccountSilent b accountId
  | .updateRunningAccounts => updateRunningAccounts b
  | .startAccount accountId => startAccount b accountId
  | .stopAccount accountId => stopAccount b accountId
  | .redeemAllAccounts => redeemAllAccounts b
  | .sellAllAccounts confirmed => sellAllAccounts b confirmed
  | .manualPlaceOrder confirmed => manualPlaceOrder b confirmed
  | .clearStatusTimeout => clearStatusTimeout
  | .clearMarketUrl => clearMarketUrl
  | .deleteAccount confirmed accountId => deleteAccount b confirmed accountId
  | .showAddAccountModal => showAddAccountModal
  | .closeModal modalId => closeModal modalId
  | .submitAddAccountForm => submitAddAccountForm b
  | .updateStrategyConfig => updateStrategyConfig b
  | .loadRunningStatus => loadRunningStatus b
  | .updateSchedulerStatus => updateSchedulerStatus b
  | .editAccount accountId => editAccount b accountId
  | .submitEditAccountForm => submitEditAccountForm b

/-! ## Concrete pages and backends used to instantiate the theorems -/

/-- A page on which nothing has happened yet, with the given two sets. -/
def St.blank (selected running : List AccountId) : St :=
  { selectedAccounts := ⟨selected⟩
    runningAccountIds := ⟨running⟩
    accountsTableBody := []
    balanceWrites := []
    selectedAccountsCount := 0
    marketUrl := ""
    orderSide := none
    manualOrderStatus := ""
    runningStatus := []
    schedulerStatus := some []
    addAccountModal := "none"
    editAccountModal := "none"
    addAccountForm := AccountData.blank
    editAccountId := 0
    editAccountForm := AccountData.blank
    strategyForm := ⟨.nan, .nan, .nan, .nan⟩
    log := [] }

/-- A backend that answers every request about an account `id` with
`success = good id` and every other request with `success = true`. -/
def Backend.answering (good : AccountId → Bool) : Backend :=
  { getAccounts := .ok ⟨true, some []⟩
    getBalance := fun id => .ok ⟨good id, none, some "balance"⟩
    postAccount := fun _ => .ok ⟨true, some "created"⟩
    putAccount := fun id _ => .ok ⟨good id, some "updated"⟩
    deleteAccount := fun id => .ok ⟨good id, some "deleted"⟩
    tasksStart := fun id => .ok ⟨good id, some "start"⟩
    tasksStop := fun id => .ok ⟨good id, some "stop"⟩
    tasksRunning := .ok ⟨true, some []⟩
    schedulerStatus := .ok ⟨true, none⟩
    startAutoMonitoring := .ok ⟨true, some "monitoring"⟩
    redeemAll := .ok ⟨true, some "redeem"⟩
    sellAll := .ok ⟨true, some "sell", none, none⟩
    manualOrder := fun _ _ _ => .ok ⟨true, some "ordered", none, none⟩
    strategyConfig := fun _ => .ok ⟨true, some "saved"⟩ }

/-- An account with the given id and name and nothing else set. -/
def Account.plain (id : AccountId) (name : String) : Account :=
  { id := id
    name := some name
    proxy_wallet_address := none
    proxy_ip := none
    status := "active"
    balance_usdc := none
    private_key := none
    builder_api_key := none
    builder_api_secret := none
    builder_api_passphrase := none
    notes := none }

/-- A backend that reports the running ids `ids` with `success = true` and
answers the account-list request with `accounts`. -/
def Backend.serving (ids : List AccountId) (accounts : AccountsResult) : Backend :=
  { Backend.answering (fun _ => true) with
    tasksRunning := .ok ⟨true, some ids⟩
    getAccounts := .ok accounts }

/-- A backend whose running-ids response has `success = false`. -/
def Backend.runningRefused : Backend :=
  { Backend.answering (fun _ => true) with tasksRunning := .ok ⟨false, none⟩ }

/-- A runtime for markup that holds neither a number nor an inherited member:
a number prints as nothing and an inherited member as its name. -/
def Runtime.plain : Runtime := ⟨fun _ => "", fun key => key⟩

/-! ## Vocabulary of the statements -/

/-- The start call of `id` was answered with `success = true`. -/
def startSucceeded (b : Backend) (id : AccountId) : Bool :=
  match b.tasksStart id with
  | .ok result => result.success
  | .error _ => false

/-- The stop call of `id` was answered with `success = true`. -/
def stopSucceeded (b : Backend) (id : AccountId) : Bool :=
  match b.tasksStop id with
  | .ok result => result.success
  | .error _ => false

/-- The request `POST /api/tasks/start/id`. -/
def startRequest (id : AccountId) : Ev := .fetch ⟨.POST, .tasksStart id, none⟩

/-- The request `POST /api/tasks/stop/id`. -/
def stopRequest (id : AccountId) : Ev := .fetch ⟨.POST, .tasksStop id, none⟩

/-- The request `POST /api/tasks/start_auto_monitoring`. -/
def monitoringRequest : Ev := .fetch ⟨.POST, .startAutoMonitoring, none⟩

/-- An effect is a network request. -/
def Ev.isFetch : Ev → Bool
  | .fetch _ => true
  | _ => false

/-- An effect is a message shown to the user in a dialog. -/
def Ev.isAlert : Ev → Bool
  | .alert _ => true
  | _ => false

/-- An effect is a confirmation prompt. -/
def Ev.isConfirm : Ev → Bool
  | .confirm _ => true
  | _ => false

/-- An effect is a timer. -/
def Ev.isTimer : Ev → Bool
  | .setTimeout _ _ => true
  | _ => false

/-- The text `manualPlaceOrder` shows for a successful response without a
message: the counts of the response. -/
def manualOrderSummary (result : ManualOrderResult) : String :=
  "手动下单完成，成功: " ++ toString (jsOrZero result.success_count) ++ ", 失败: " ++
    toString (jsOrZero result.fail_count)

/-- The request `POST /api/tasks/manual_order` with the given body fields. -/
def manualOrderRequest (market_url : String) (account_ids : List AccountId) (side : String) : Ev :=
  .fetch ⟨.POST, .manualOrder, some (.manualOrder market_url account_ids side)⟩

/-- An effect is an error caught by a handler and written to the console. -/
def Ev.isConsoleError : Ev → Bool
  | .consoleError _ _ => true
  | _ => false

/-- The message of the answer to a request of a command, when the request was
answered with `success = false`: the text the script concatenates for
`result.message`. -/
def Backend.refusal (b : Backend) (req : Request) : Option String :=
  match req.method, req.endpoint, req.body with
  | .GET, .accountBalance id, _ =>
    (match b.getBalance id with
     | .ok r => if r.success then none else some (jsString r.message)
     | .error _ => none)
  | .POST, .accounts, some (.account data) =>
    (match b.postAccount data with
     | .ok r => if r.success then none else some (jsString r.message)
     | .error _ => none)
  | .PUT, .account id, some (.account data) =>
    (match b.putAccount id data with
     | .ok r => if r.success then none else some (jsString r.message)
     | .error _ => none)
  | .DELETE, .account id, _ =>
    (match b.deleteAccount id with
     | .ok r => if r.success then none else some (jsString r.message)
     | .error _ => none)
  | .POST, .tasksStart id, _ =>
    (match b.tasksStart id with
     | .ok r => if r.success then none else some (jsString r.message)
     | .error _ => none)
  | .POST, .tasksStop id, _ =>
    (match b.tasksStop id with
     | .ok r => if r.success then none else some (jsString r.message)
     | .error _ => none)
  | .POST, .startAutoMonitoring, _ =>
    (match b.startAutoMonitoring with
     | .ok r => if r.success then none else some (jsString r.message)
     | .error _ => none)
  | .POST, .redeemAll, _ =>
    (match b.redeemAll with
     | .ok r => if r.success then none else some (jsString r.message)
     | .error _ => none)
  | .POST, .sellAll, _ =>
    (match b.sellAll with
     | .ok r => if r.success then none else some (jsString r.message)
     | .error _ => none)
  | .POST, .manualOrder, some (.manualOrder market_url account_ids side) =>
    (match b.manualOrder market_url account_ids side with
     | .ok r => if r.success then none else some (jsString r.message)
     | .error _ => none)
  | .PUT, .strategyConfig, some (.strategyConfig config) =>
    (match b.strategyConfig config with
     | .ok r => if r.success then none else some (jsString r.message)
     | .error _ => none)
  | _, _, _ => none

/-- The user-triggered commands: start, stop, start-selected, stop-selected,
redeem-all, sell-all, manual-order, account create / update / delete,
strategy-config update and balance refresh. -/
def Action.isCommand : Action → Bool
  | .startAccount _ => true
  | .stopAccount _ => true
  | .startSelectedAccounts _ => true
  | .stopSelectedAccounts _ => true
  | .redeemAllAccounts => true
  | .sellAllAccounts _ => true
  | .manualPlaceOrder _ => true
  | .submitAddAccountForm => true
  | .submitEditAccountForm => true
  | .deleteAccount _ _ => true
  | .updateStrategyConfig => true
  | .refreshBalance _ => true
  | _ => false

/-- The words with which a command announces that its request was refused. -/
def Action.failureWords : Action → String
  | .startAccount _ => "启动失败: "
  | .stopAccount _ => "停止失败: "
  | .redeemAllAccounts => "索取失败: "
  | .sellAllAccounts _ => "出售失败: "
  | .manualPlaceOrder _ => "下单失败: "
  | .submitAddAccountForm => "添加失败: "
  | .submitEditAccountForm => "更新失败: "
  | .deleteAccount _ _ => "删除失败: "
  | .updateStrategyConfig => "更新失败: "
  | .refreshBalance _ => "刷新余额失败: "
  | _ => ""

/-- The run from `before` to `after` showed the user the text `text`: in an
alert, or as the red text of the inline status of the manual order. -/
def shown (before after : St) (text : String) : Prop :=
  Ev.alert text ∈ St.newEvents before after ∨
  after.manualOrderStatus = statusSpan "red" text

/-- The first list is an initial segment of the second. -/
def startsWith : List Char → List Char → Bool
  | [], _ => true
  | _ :: _, [] => false
  | a :: as, b :: bs => a == b && startsWith as bs

/-- The text `needle` occurs somewhere in `hay`. -/
def occursIn (needle hay : String) : Bool :=
  hay.data.tails.any (startsWith needle.data)

/-- The part is text of the script and `needle` occurs in it. -/
def Chunk.mentions (needle : String) : Chunk → Bool
  | .text s => occursIn needle s
  | .value _ => false

/-- The part is text of the script that names a start or stop handler or
carries a start or stop label. -/
def Chunk.mentionsStartStop (c : Chunk) : Bool :=
  c.mentions "stopAccount" || c.mentions "startAccount" || c.mentions "停止" ||
    c.mentions "启动"

/-- The part is a string, an integer or text of the script, which prints the
same under every runtime. -/
def Chunk.isPlain : Chunk → Bool
  | .value (.num _) => false
  | .value (.inherited _) => false
  | _ => true

/-- What makes the action button of a table row a stop button for `id`: the
class, the handler `stopAccount(id)` and the label 停止, with the template text
between them. -/
def stopButtonMarkup (id : AccountId) : Markup :=
  [.text "btn-danger", .text "\" \n                    onclick=\"", .text "stopAccount",
    .text "(", .value (.int id), .text ")\">\n                    ", .text "停止"]

/-- What makes the action button of a table row a start button for `id`: the
class, the handler `startAccount(id)` and the label 启动, with the template text
between them. -/
def startButtonMarkup (id : AccountId) : Markup :=
  [.text "btn-success", .text "\" \n                    onclick=\"", .text "startAccount",
    .text "(", .value (.int id), .text ")\">\n                    ", .text "启动"]

/-- The number of places of `hay` at which the text `needle` occurs. -/
def occurrences (needle hay : String) : Nat :=
  (hay.data.tails.filter (startsWith needle.data)).length

/-- The number of occurrences of `needle` in the text of the script, the values
of the data left aside. -/
def Markup.scriptCount (needle : String) : Markup → Nat
  | [] => 0
  | .text s :: m => occurrences needle s + Markup.scriptCount needle m
  | .value _ :: m => Markup.scriptCount needle m

/-- The text `hay` ends with `ending`. -/
def endsWith (ending hay : String) : Bool :=
  startsWith ending.data.reverse hay.data.reverse

/-- The text `hay` begins with `opening`. -/
def beginsWith (opening hay : String) : Bool :=
  startsWith opening.data hay.data

/-- The markup is an entry of the panel with a stop button for `id`: it ends
with the button `stopAccount(id)` labelled 停止, and the text of the script
names that handler and that label once and no start handler or label. -/
def IsStopEntry (id : AccountId) (m : Markup) : Prop :=
  (∃ (before : Markup) (a z : String),
    m = before ++ [.text a, .value (.int id), .text z] ∧
    endsWith "<button class=\"btn btn-sm btn-danger\" onclick=\"stopAccount(" a = true ∧
    beginsWith ")\">停止</button>" z = true) ∧
  m.scriptCount "stopAccount" = 1 ∧ m.scriptCount "停止" = 1 ∧
  m.scriptCount "startAccount" = 0 ∧ m.scriptCount "启动" = 0

/-- The markup is an entry of the panel with a start button for `id`: it ends
with the button `startAccount(id)` labelled 启动, and the text of the script
names that handler and that label once and no stop handler or label. -/
def IsStartEntry (id : AccountId) (m : Markup) : Prop :=
  (∃ (before : Markup) (a z : String),
    m = before ++ [.text a, .value (.int id), .text z] ∧
    endsWith "<button class=\"btn btn-sm btn-success\" onclick=\"startAccount(" a = true ∧
    beginsWith ")\">启动</button>" z = true) ∧
  m.scriptCount "startAccount" = 1 ∧ m.scriptCount "启动" = 1 ∧
  m.scriptCount "stopAccount" = 0 ∧ m.scriptCount "停止" = 0

/-! ## Facts about sets -/

theorem JSSet.mem_add (s : JSSet) (x y : AccountId) :
    y ∈ (s.add x).elems ↔ y = x ∨ y ∈ s.elems := by
  unfold JSSet.add
  by_cases h : x ∈ s.elems
  · simp only [h, if_true]
    constructor
    · intro hy; exact Or.inr hy
    · rintro (rfl | hy)
      · exact h
      · exact hy
  · simp only [h, if_false, List.mem_append, List.mem_singleton]
    tauto

theorem JSSet.mem_delete (s : JSSet) (x y : AccountId) :
    y ∈ (s.delete x).elems ↔ y ≠ x ∧ y ∈ s.elems := by
  simp [JSSet.delete, List.mem_filter, and_comm]

theorem JSSet.has_add (s : JSSet) (x y : AccountId) :
    (s.add x).has y = (decide (y = x) || s.has y) := by
  simp only [JSSet.has, JSSet.mem_add]
  by_cases h1 : y = x <;> by_cases h2 : y ∈ s.elems <;> simp [h1, h2]

theorem JSSet.has_delete (s : JSSet) (x y : AccountId) :
    (s.delete x).has y = (decide (y ≠ x) && s.has y) := by
  simp only [JSSet.has, JSSet.mem_delete]
  by_cases h1 : y = x <;> by_cases h2 : y ∈ s.elems <;> simp [h1, h2]

theorem JSSet.delete_of_not_mem (s : JSSet) (x : AccountId) (h : x ∉ s.elems) :
    s.delete x = s := by
  cases s with
  | mk l =>
    simp only [JSSet.delete, JSSet.mk.injEq]
    apply List.filter_eq_self.mpr
    intro a ha
    simp only [ne_eq, decide_eq_true_eq]
    rintro rfl
    exact h ha

theorem JSSet.delete_delete (s : JSSet) (x : AccountId) :
    (s.delete x).delete x = s.delete x :=
  JSSet.delete_of_not_mem _ _ (by simp [JSSet.mem_delete])

/-! ## Start and stop of one account -/

theorem log_emit (st : St) (e : Ev) : (st.emit e).log = st.log ++ [e] := rfl

theorem newEvents_append (st st1 : St) (l : List Ev) (h : st1.log = st.log ++ l) :
    St.newEvents st st1 = l := by
  simp [St.newEvents, h]

/-- C1: after a successful start response the running set is the old one with
the id added, for `startAccount` and `startAccountSilent`, and `startAccount`
calls `loadAccounts` on a state that already has the id; after a successful
stop response the running set is the old one without the id, for `stopAccount`
and `stopAccountSilent`, and `checkAccountRunning` is false. -/
theorem start_stop_success_updates_running (b : Backend) (st : St) (id : AccountId) :
    (∀ r, b.tasksStart id = .ok r → r.success = true →
      (startAccount b id st).runningAccountIds = st.runningAccountIds.add id ∧
      (startAccountSilent b id st).runningAccountIds = st.runningAccountIds.add id ∧
      (∀ x, x ∈ (st.runningAccountIds.add id).elems ↔ x = id ∨ x ∈ st.runningAccountIds.elems) ∧
      checkAccountRunning (startAccount b id st) id = true ∧
      checkAccountRunning (startAccountSilent b id st) id = true ∧
      ∃ pre : St, pre.runningAccountIds = st.runningAccountIds.add id ∧
        St.newEvents st pre = [.fetch ⟨.POST, .tasksStart id, none⟩, .alert "账号启动成功"] ∧
        startAccount b id st = (pre.call .loadAccounts).call .loadRunningStatus) ∧
    (∀ r, b.tasksStop id = .ok r → r.success = true →
      (stopAccount b id st).runningAccountIds = st.runningAccountIds.delete id ∧
      (stopAccountSilent b id st).runningAccountIds = st.runningAccountIds.delete id ∧
      (∀ x, x ∈ (st.runningAccountIds.delete id).elems ↔ x ≠ id ∧ x ∈ st.runningAccountIds.elems) ∧
      checkAccountRunning (stopAccount b id st) id = false ∧
      checkAccountRunning (stopAccountSilent b id st) id = false) := by
  refine ⟨?_, ?_⟩
  · intro r hr hs
    have hmem : id ∈ (st.runningAccountIds.add id).elems := (JSSet.mem_add _ _ _).mpr (Or.inl rfl)
    refine ⟨?_, ?_, fun x => JSSet.mem_add _ _ _, ?_, ?_, ?_⟩
    · simp [startAccount, hr, hs, St.fetch, St.alert, St.call, St.emit]
    · simp [startAccountSilent, startAccountSilentResume, hr, hs, St.fetch, St.emit]
    · simp [checkAccountRunning, JSSet.has, startAccount, hr, hs, St.fetch, St.alert, St.call,
        St.emit, hmem]
    · simp [checkAccountRunning, JSSet.has, startAccountSilent, startAccountSilentResume, hr, hs,
        St.fetch, St.emit, hmem]
    · refine ⟨{ ((st.fetch .POST (.tasksStart id) none).alert "账号启动成功") with
          runningAccountIds := st.runningAccountIds.add id }, rfl, ?_, ?_⟩
      · apply newEvents_append
        simp [St.fetch, St.alert, St.emit]
      · simp [startAccount, hr, hs, St.fetch, St.alert, St.call, St.emit]
  · intro r hr hs
    have hmem : id ∉ (st.runningAccountIds.delete id).elems := by simp [JSSet.mem_delete]
    refine ⟨?_, ?_, fun x => JSSet.mem_delete _ _ _, ?_, ?_⟩
    · simp [stopAccount, hr, hs, St.fetch, St.alert, St.call, St.emit]
    · simp [stopAccountSilent, stopAccountSilentResume, hr, hs, St.fetch, St.emit]
    · simp [checkAccountRunning, JSSet.has, stopAccount, hr, hs, St.fetch, St.alert, St.call,
        St.emit, hmem]
    · simp [checkAccountRunning, JSSet.has, stopAccountSilent, stopAccountSilentResume, hr, hs,
        St.fetch, St.emit, hmem]

/-- C1 at a concrete page: running set `{4}`, account 9 started and account 4
stopped with successful responses. -/
theorem start_stop_success_updates_running_witness :
    (startAccount (Backend.answering fun _ => true) 9 (St.blank [] [4])).runningAccountIds = ⟨[4, 9]⟩ ∧
    (stopAccount (Backend.answering fun _ => true) 4 (St.blank [] [4])).runningAccountIds = ⟨[]⟩ ∧
    checkAccountRunning (stopAccount (Backend.answering fun _ => true) 4 (St.blank [] [4])) 4 = false := by
  have h9 := start_stop_success_updates_running (Backend.answering fun _ => true) (St.blank [] [4]) 9
  have h4 := start_stop_success_updates_running (Backend.answering fun _ => true) (St.blank [] [4]) 4
  refine ⟨?_, ?_, ?_⟩
  · rw [(h9.1 ⟨true, some "start"⟩ rfl rfl).1]; decide
  · rw [(h4.2 ⟨true, some "stop"⟩ rfl rfl).1]; decide
  · exact (h4.2 ⟨true, some "stop"⟩ rfl rfl).2.2.2.1

/-! ## Start of the selected accounts -/

theorem foldl_fetch (mk : AccountId → Endpoint) (l : List AccountId) (st : St) :
    l.foldl (fun st id => st.fetch .POST (mk id) none) st =
      { st with log := st.log ++ l.map (fun id => Ev.fetch ⟨.POST, mk id, none⟩) } := by
  induction l generalizing st with
  | nil => simp
  | cons a l ih =>
    rw [List.foldl_cons, ih]
    simp [St.fetch, St.emit]

theorem startAccountSilentResume_eq (b : Backend) (id : AccountId) (st : St) :
    startAccountSilentResume b id st =
      { st with
        runningAccountIds := if startSucceeded b id then st.runningAccountIds.add id
          else st.runningAccountIds
        log := st.log ++ (match b.tasksStart id with
          | .ok _ => []
          | .error e => [Ev.consoleError ("启动账号 " ++ toString id ++ " 失败:") e]) } := by
  unfold startAccountSilentResume startSucceeded
  cases h : b.tasksStart id with
  | ok r => cases hs : r.success <;> simp [hs]
  | error e => simp [St.consoleError, St.emit]

theorem foldl_startResume (b : Backend) (l : List AccountId) (st : St) :
    ∃ evs : List Ev, (∀ e ∈ evs, e.isFetch = false ∧ e.isAlert = false) ∧
      l.foldl (fun st id => startAccountSilentResume b id st) st =
        { st with
          runningAccountIds :=
            l.foldl (fun s id => if startSucceeded b id then s.add id else s) st.runningAccountIds
          log := st.log ++ evs } := by
  induction l generalizing st with
  | nil => exact ⟨[], by simp, by simp⟩
  | cons a l ih =>
    obtain ⟨evs, hevs, h⟩ := ih (startAccountSilentResume b a st)
    rw [List.foldl_cons, h, startAccountSilentResume_eq]
    cases hb : b.tasksStart a with
    | ok r => exact ⟨evs, hevs, by simp⟩
    | error e =>
      refine ⟨Ev.consoleError ("启动账号 " ++ toString a ++ " 失败:") e :: evs, ?_, by simp⟩
      intro x hx
      rcases List.mem_cons.mp hx with rfl | hx
      · exact ⟨rfl, rfl⟩
      · exact hevs x hx

theorem mem_foldl_add (p : AccountId → Bool) (l : List AccountId) (s : JSSet) (x : AccountId) :
    x ∈ (l.foldl (fun s id => if p id then s.add id else s) s).elems ↔
      x ∈ s.elems ∨ (x ∈ l ∧ p x = true) := by
  induction l generalizing s with
  | nil => simp
  | cons a l ih =>
    rw [List.foldl_cons, ih]
    by_cases hp : p a = true
    · simp only [hp, if_true, JSSet.mem_add, List.mem_cons]
      constructor
      · rintro ((rfl | h) | ⟨h, hx⟩)
        · exact Or.inr ⟨Or.inl rfl, hp⟩
        · exact Or.inl h
        · exact Or.inr ⟨Or.inr h, hx⟩
      · rintro (h | ⟨rfl | h, hx⟩)
        · exact Or.inl (Or.inr h)
        · exact Or.inl (Or.inl rfl)
        · exact Or.inr ⟨h, hx⟩
    · simp only [hp, List.mem_cons]
      constructor
      · rintro (h | ⟨h, hx⟩)
        · exact Or.inl h
        · exact Or.inr ⟨Or.inr h, hx⟩
      · rintro (h | ⟨rfl | h, hx⟩)
        · exact Or.inl h
        · exact absurd hx hp
        · exact Or.inr ⟨h, hx⟩

theorem count_eq_zero_of_not_fetch (evs : List Ev) (h : ∀ e ∈ evs, e.isFetch = false)
    (req : Request) : evs.count (.fetch req) = 0 := by
  apply List.count_eq_zero_of_not_mem
  intro hm
  have := h _ hm
  simp [Ev.isFetch] at this

theorem count_startRequest (l : List AccountId) (id : AccountId) :
    (l.map (fun i => Ev.fetch ⟨.POST, .tasksStart i, none⟩)).count (startRequest id) =
      l.count id := by
  apply List.count_map_of_injective
  intro x y hxy
  simpa [startRequest] using hxy

theorem startSelectedAccounts_run (b : Backend) (arrival : List AccountId) (st : St)
    (hne : st.selectedAccounts.size ≠ 0) :
    ∃ evs tail : List Ev, (∀ e ∈ evs, e.isFetch = false) ∧ (∀ e ∈ tail, e.isFetch = false) ∧
      (startSelectedAccounts b arrival st).log =
        st.log ++ (st.selectedAccounts.elems.map (fun i => Ev.fetch ⟨.POST, .tasksStart i, none⟩) ++
          evs ++ monitoringRequest :: tail) ∧
      (startSelectedAccounts b arrival st).runningAccountIds =
        arrival.foldl (fun s id => if startSucceeded b id then s.add id else s)
          st.runningAccountIds ∧
      (startSelectedAccounts b arrival st).selectedAccounts = st.selectedAccounts := by
  obtain ⟨evs, hevs2, h⟩ := foldl_startResume b arrival
    (st.selectedAccounts.elems.foldl (fun st accountId => st.fetch .POST (.tasksStart accountId) none) st)
  have hevs : ∀ e ∈ evs, e.isFetch = false := fun e he => (hevs2 e he).1
  simp only [startSelectedAccounts, if_neg hne]
  rw [h, foldl_fetch]
  cases hm : b.startAutoMonitoring with
  | ok r =>
    cases hs : r.success
    · refine ⟨evs, [.alert ("启动自动监控失败: " ++ jsString r.message), .call .loadAccounts,
        .call .loadRunningStatus], hevs, by simp [Ev.isFetch], ?_, ?_, ?_⟩ <;>
      simp [hs, St.fetch, St.alert, St.call, St.emit, monitoringRequest]
    · refine ⟨evs, [.alert ("已启动 " ++ toString st.selectedAccounts.size ++ " 个账号的自动监控"),
        .call .loadAccounts, .call .loadRunningStatus], hevs, by simp [Ev.isFetch], ?_, ?_, ?_⟩ <;>
      simp [hs, St.fetch, St.alert, St.call, St.emit, monitoringRequest]
  | error e =>
    refine ⟨evs, [.consoleError "启动自动监控失败:" e, .alert ("启动自动监控失败: " ++ e),
      .call .loadAccounts, .call .loadRunningStatus], hevs, by simp [Ev.isFetch], ?_, ?_, ?_⟩ <;>
    simp [St.fetch, St.alert, St.call, St.consoleError, St.emit, monitoringRequest]

/-- C2: with a non-empty selection `S` (a set, so without repetition) and the
responses of the fan-out coming in in any order, `startSelectedAccounts` issues
the start request of an id exactly once if the id is in `S` and never
otherwise, whatever the outcomes; the running set ends as the old one united
with the ids of `S` whose start response had `success = true`; and exactly one
`start_auto_monitoring` request is issued, after every start request and
followed by no further request. -/
theorem startSelectedAccounts_attempts_all (b : Backend) (arrival : List AccountId) (st : St)
    (hne : st.selectedAccounts.size ≠ 0) (hnd : st.selectedAccounts.elems.Nodup)
    (hperm : arrival.Perm st.selectedAccounts.elems) :
    (∀ id, (St.newEvents st (startSelectedAccounts b arrival st)).count (startRequest id) =
      if id ∈ st.selectedAccounts.elems then 1 else 0) ∧
    (∀ x, x ∈ (startSelectedAccounts b arrival st).runningAccountIds.elems ↔
      x ∈ st.runningAccountIds.elems ∨
        (x ∈ st.selectedAccounts.elems ∧ startSucceeded b x = true)) ∧
    (St.newEvents st (startSelectedAccounts b arrival st)).count monitoringRequest = 1 ∧
    ∃ before after : List Ev,
      St.newEvents st (startSelectedAccounts b arrival st) = before ++ monitoringRequest :: after ∧
      (∀ id ∈ st.selectedAccounts.elems, startRequest id ∈ before) ∧
      monitoringRequest ∉ before ∧
      (∀ e ∈ after, e.isFetch = false) := by
  obtain ⟨evs, tail, hevs, htail, hlog, hrun, -⟩ := startSelectedAccounts_run b arrival st hne
  have hnew := newEvents_append st _ _ hlog
  have hevs0 : ∀ req, evs.count (.fetch req) = 0 := count_eq_zero_of_not_fetch evs hevs
  have htail0 : ∀ req, tail.count (.fetch req) = 0 := count_eq_zero_of_not_fetch tail htail
  have hmapmon : monitoringRequest ∉
      st.selectedAccounts.elems.map (fun i => Ev.fetch ⟨.POST, .tasksStart i, none⟩) := by
    simp [monitoringRequest]
  have hevsmon : monitoringRequest ∉ evs := fun hm => by
    have := hevs _ hm
    simp [monitoringRequest, Ev.isFetch] at this
  refine ⟨?_, ?_, ?_, ?_⟩
  · intro id
    have h1 : List.count (startRequest id) evs = 0 := hevs0 _
    have h2 : List.count (startRequest id) tail = 0 := htail0 _
    have h3 : (monitoringRequest == startRequest id) = false := by
      simp [startRequest, monitoringRequest]
    rw [hnew, List.count_append, List.count_append, List.count_cons, count_startRequest, h1, h2, h3]
    by_cases hid : id ∈ st.selectedAccounts.elems
    · simp [hid, List.count_eq_one_of_mem hnd hid]
    · simp [hid, List.count_eq_zero_of_not_mem hid]
  · intro x
    rw [hrun, mem_foldl_add, hperm.mem_iff]
  · have h1 : List.count monitoringRequest evs = 0 := hevs0 _
    have h2 : List.count monitoringRequest tail = 0 := htail0 _
    rw [hnew, List.count_append, List.count_append, List.count_cons,
      List.count_eq_zero_of_not_mem hmapmon, h1, h2]
    simp
  · refine ⟨st.selectedAccounts.elems.map (fun i => Ev.fetch ⟨.POST, .tasksStart i, none⟩) ++ evs,
      tail, hnew, ?_, ?_, htail⟩
    · intro id hid
      exact List.mem_append_left _ (List.mem_map.mpr ⟨id, hid, rfl⟩)
    · intro hm
      rcases List.mem_append.mp hm with hm | hm
      · exact hmapmon hm
      · exact hevsmon hm

/-- C2 at the selection `{3, 7}` with an empty running set, the start of 3
succeeding and the start of 7 failing, the response for 7 coming in first: the
running set ends as `{3}` and the monitoring request is issued. -/
theorem startSelectedAccounts_attempts_all_witness :
    (startSelectedAccounts (Backend.answering fun id => decide (id = 3)) [7, 3]
      (St.blank [3, 7] [])).runningAccountIds = ⟨[3]⟩ ∧
    (St.newEvents (St.blank [3, 7] []) (startSelectedAccounts
      (Backend.answering fun id => decide (id = 3)) [7, 3] (St.blank [3, 7] []))).count
        (startRequest 7) = 1 ∧
    (St.newEvents (St.blank [3, 7] []) (startSelectedAccounts
      (Backend.answering fun id => decide (id = 3)) [7, 3] (St.blank [3, 7] []))).count
        monitoringRequest = 1 := by
  have h := startSelectedAccounts_attempts_all (Backend.answering fun id => decide (id = 3))
    [7, 3] (St.blank [3, 7] []) (by decide) (by decide) (by decide)
  exact ⟨by decide, by simpa using h.1 7, h.2.2.1⟩

/-! ## The accounts table -/

theorem foldl_renderRow (accounts : List Account) (st : St) :
    accounts.foldl
      (fun st account => { st with accountsTableBody := st.accountsTableBody ++ [renderRow st account] })
      st = { st with accountsTableBody := st.accountsTableBody ++ accounts.map (renderRow st) } := by
  induction accounts generalizing st with
  | nil => simp
  | cons a l ih =>
    rw [List.foldl_cons, ih]
    simp [renderRow, checkAccountRunning]

set_option maxRecDepth 100000 in
/-- C3 as stated fails: account 1 is not running and its name holds the markup
of a stop button; the row written for it holds that stop button, complete, next
to the start button of the template.  And for an account named with the opening
of a comment the row opens a comment before the button of the template and
never closes it. -/
theorem renderRow_name_markup_adds_button :
    checkAccountRunning (St.blank [] []) 1 = false ∧
    occursIn "<td><button class=\"btn btn-sm btn-danger\" onclick=\"stopAccount(1)\">停止</button></td>"
      ((renderRow (St.blank [] []) (Account.plain 1
        "<button class=\"btn btn-sm btn-danger\" onclick=\"stopAccount(1)\">停止</button>")).html
        Runtime.plain) = true ∧
    occursIn "onclick=\"startAccount(1)\">"
      ((renderRow (St.blank [] []) (Account.plain 1
        "<button class=\"btn btn-sm btn-danger\" onclick=\"stopAccount(1)\">停止</button>")).html
        Runtime.plain) = true ∧
    (renderRow (St.blank [] []) (Account.plain 1
      "<button class=\"btn btn-sm btn-danger\" onclick=\"stopAccount(1)\">停止</button>")).all
        Chunk.isPlain = true ∧
    occursIn "<td><!--</td>"
      ((renderRow (St.blank [] []) (Account.plain 1 "<!--")).html Runtime.plain) = true ∧
    occursIn "-->"
      ((renderRow (St.blank [] []) (Account.plain 1 "<!--")).html Runtime.plain) = false := by
  refine ⟨by decide, by decide, by decide, by decide, by decide, by decide⟩

theorem renderRow_split (st : St) (account : Account) :
    renderRow st account =
      (renderRow st account).take 23 ++
        (if account.id ∈ st.runningAccountIds.elems then stopButtonMarkup account.id
          else startButtonMarkup account.id) ++
        (renderRow st account).drop 30 := by
  by_cases h : account.id ∈ st.runningAccountIds.elems <;>
    simp [renderRow, checkAccountRunning, JSSet.has, h, stopButtonMarkup, startButtonMarkup]

set_option maxRecDepth 100000 in
theorem renderRow_rest_silent (st : St) (account : Account) :
    ∀ c ∈ (renderRow st account).take 23 ++ (renderRow st account).drop 30,
      c.mentionsStartStop = false := by
  have h1 : Chunk.mentionsStartStop (.text "checked") = false := by decide
  have h2 : Chunk.mentionsStartStop (.text "") = false := by decide
  have h3 : Chunk.mentionsStartStop (.text "未知") = false := by decide
  have hv : ∀ v, Chunk.mentionsStartStop (.value v) = false := fun _ => rfl
  have hb : Chunk.mentionsStartStop
      (match account.balance_usdc with
        | some balance => Chunk.value (.num balance)
        | none => Chunk.text "未知") = false := by
    cases account.balance_usdc <;> simp [h3, hv]
  intro c hc
  simp only [renderRow, List.take, List.drop, List.cons_append, List.nil_append, List.mem_cons,
    List.mem_nil_iff, or_false] at hc
  rcases hc with rfl | rfl | rfl | rfl | rfl | rfl | rfl | rfl | rfl | rfl | rfl | rfl | rfl | rfl |
    rfl | rfl | rfl | rfl | rfl | rfl | rfl | rfl | rfl | rfl | rfl | rfl | rfl | rfl
  all_goals first
    | exact hv _
    | exact hb
    | (cases st.selectedAccounts.has account.id <;> simp [h1, h2])
    | decide

/-- C3, amended: `renderAccountsTable` writes one row per account, in order; in
the markup of a row the text of the script holds exactly one start/stop action
button: the parts that make it a stop button (class, handler `stopAccount(id)`,
label 停止) if and only if the id is in the running set, those of a start button
(handler `startAccount(id)`, label 启动) otherwise, and no other text of the
script names a start or stop handler or label; the name, wallet address, proxy
ip and status of the account are parts of that markup as they are, unescaped. -/
theorem renderAccountsTable_template_button (accounts : List Account) (st : St) :
    (renderAccountsTable accounts st).accountsTableBody = accounts.map (renderRow st) ∧
    ∀ account : Account, ∃ before after : Markup,
      renderRow st account =
        before ++
          (if account.id ∈ st.runningAccountIds.elems then stopButtonMarkup account.id
            else startButtonMarkup account.id) ++
          after ∧
      (∀ c ∈ before ++ after, c.mentionsStartStop = false) ∧
      Chunk.value (.str (jsString account.name)) ∈ before ∧
      Chunk.value (.str (jsOr account.proxy_wallet_address "未设置")) ∈ before ∧
      Chunk.value (.str (jsOr account.proxy_ip "无代理")) ∈ before ∧
      Chunk.value (.str account.status) ∈ before ∧
      Chunk.value (getStatusText account.status) ∈ before := by
  constructor
  · unfold renderAccountsTable
    simp only []
    rw [foldl_renderRow]
    simp only [updateSelectedCount, List.nil_append]
    rfl
  · intro account
    refine ⟨(renderRow st account).take 23, (renderRow st account).drop 30,
      renderRow_split st account, renderRow_rest_silent st account, ?_, ?_, ?_, ?_, ?_⟩ <;>
    simp [renderRow]

/-! ## Manual order -/

/-- C4: whatever the market URL text and the direction choice, with an empty
selection `manualPlaceOrder` adds nothing to the log (no request, no prompt),
writes the validation message into the inline status and leaves both sets as
they were. -/
theorem manualPlaceOrder_empty_selection (b : Backend) (confirmed : Bool) (st : St)
    (url : String) (side : Option String) (h : st.selectedAccounts.size = 0) :
    St.newEvents { st with marketUrl := url, orderSide := side }
      (manualPlaceOrder b confirmed { st with marketUrl := url, orderSide := side }) = [] ∧
    (manualPlaceOrder b confirmed { st with marketUrl := url, orderSide := side }).log = st.log ∧
    (manualPlaceOrder b confirmed { st with marketUrl := url, orderSide := side }).manualOrderStatus =
      statusSpan "red" "请先选择要下单的账号" ∧
    (manualPlaceOrder b confirmed { st with marketUrl := url, orderSide := side }).selectedAccounts =
      st.selectedAccounts ∧
    (manualPlaceOrder b confirmed { st with marketUrl := url, orderSide := side }).runningAccountIds =
      st.runningAccountIds := by
  refine ⟨?_, ?_, ?_, ?_, ?_⟩ <;> simp [manualPlaceOrder, h, St.newEvents]

/-- C4 on a page with nothing selected, account 5 running, a URL typed and the
side YES chosen. -/
theorem manualPlaceOrder_empty_selection_witness :
    (manualPlaceOrder (Backend.answering fun _ => true) true
      { St.blank [] [5] with marketUrl := "https://x/market/abc", orderSide := some "YES" }).log = [] ∧
    (manualPlaceOrder (Backend.answering fun _ => true) true
      { St.blank [] [5] with marketUrl := "https://x/market/abc", orderSide := some "YES" }).manualOrderStatus =
      "<span style=\"color: red;\">请先选择要下单的账号</span>" := by
  have h := manualPlaceOrder_empty_selection (Backend.answering fun _ => true) true
    (St.blank [] [5]) "https://x/market/abc" (some "YES") (by decide)
  exact ⟨h.2.1, h.2.2.1.trans (by decide)⟩

theorem manualPlaceOrder_run (b : Backend) (st : St) (side : String)
    (hne : st.selectedAccounts.size ≠ 0) (hside : st.orderSide = some side) :
    ∃ prompt : String, manualPlaceOrder b true st =
      match b.manualOrder (jsTrim st.marketUrl) st.selectedAccounts.elems side with
      | .ok result =>
        if result.success then
          { st with
            manualOrderStatus := statusSpan "green" (jsOr result.message (manualOrderSummary result))
            log := st.log ++ [.confirm prompt,
              .fetch ⟨.POST, .manualOrder,
                some (.manualOrder (jsTrim st.marketUrl) st.selectedAccounts.elems side)⟩,
              .setTimeout .clearManualOrderStatus 5000] }
        else
          { st with
            manualOrderStatus := statusSpan "red" ("下单失败: " ++ jsString result.message)
            log := st.log ++ [.confirm prompt,
              .fetch ⟨.POST, .manualOrder,
                some (.manualOrder (jsTrim st.marketUrl) st.selectedAccounts.elems side)⟩] }
      | .error error =>
        { st with
          manualOrderStatus := statusSpan "red" ("下单失败: " ++ error)
          log := st.log ++ [.confirm prompt,
            .fetch ⟨.POST, .manualOrder,
              some (.manualOrder (jsTrim st.marketUrl) st.selectedAccounts.elems side)⟩,
            .consoleError "手动下单失败:" error] } := by
  refine ⟨"确定要为 " ++ toString st.selectedAccounts.size ++ " 个选中的账号手动下单 " ++
    (if side = "YES" then "YES/UP (绿色)" else "NO/DOWN (红色)") ++ " 吗？", ?_⟩
  simp only [manualPlaceOrder, if_neg hne, hside]
  cases hb : b.manualOrder (jsTrim st.marketUrl) st.selectedAccounts.elems side with
  | ok r =>
    cases hs : r.success <;>
      simp [hb, hs, hside, St.fetch, St.emit, St.consoleError, manualOrderSummary]
  | error e => simp [hb, hside, St.fetch, St.emit, St.consoleError]

theorem mem_takeWhile_holds {α : Type} (p : α → Bool) (l : List α) :
    ∀ x ∈ l.takeWhile p, p x = true := by
  induction l with
  | nil => simp
  | cons a l ih =>
    intro x hx
    rw [List.takeWhile_cons] at hx
    by_cases ha : p a = true
    · rw [if_pos ha] at hx
      rcases List.mem_cons.mp hx with rfl | hx
      · exact ha
      · exact ih x hx
    · rw [if_neg ha] at hx
      simp at hx

theorem head?_dropWhile_fails {α : Type} (p : α → Bool) (l : List α) (x : α)
    (h : (l.dropWhile p).head? = some x) : p x = false := by
  have := List.head?_dropWhile_not p l
  rw [h] at this
  exact this

theorem jsTrim_spec (u : String) :
    ∃ lead trail : List Char,
      u.data = lead ++ (jsTrim u).data ++ trail ∧
      (∀ c ∈ lead, isJSWhiteSpace c = true) ∧ (∀ c ∈ trail, isJSWhiteSpace c = true) ∧
      (∀ c, (jsTrim u).data.head? = some c → isJSWhiteSpace c = false) ∧
      (∀ c, (jsTrim u).data.getLast? = some c → isJSWhiteSpace c = false) := by
  have hd : u.data = u.data.takeWhile isJSWhiteSpace ++ u.data.dropWhile isJSWhiteSpace :=
    (List.takeWhile_append_dropWhile isJSWhiteSpace u.data).symm
  have he : u.data.dropWhile isJSWhiteSpace =
      ((u.data.dropWhile isJSWhiteSpace).reverse.dropWhile isJSWhiteSpace).reverse ++
        ((u.data.dropWhile isJSWhiteSpace).reverse.takeWhile isJSWhiteSpace).reverse := by
    rw [← List.reverse_append, List.takeWhile_append_dropWhile, List.reverse_reverse]
  refine ⟨u.data.takeWhile isJSWhiteSpace,
    ((u.data.dropWhile isJSWhiteSpace).reverse.takeWhile isJSWhiteSpace).reverse, ?_,
    mem_takeWhile_holds _ _, ?_, ?_, ?_⟩
  · show u.data = _ ++ ((u.data.dropWhile isJSWhiteSpace).reverse.dropWhile isJSWhiteSpace).reverse ++ _
    rw [List.append_assoc, ← he, ← hd]
  · intro c hc
    exact mem_takeWhile_holds _ _ c (List.mem_reverse.mp hc)
  · intro c hc
    have hc1 : (((u.data.dropWhile isJSWhiteSpace).reverse.dropWhile isJSWhiteSpace).reverse).head? =
        some c := hc
    have hc2 : (u.data.dropWhile isJSWhiteSpace).head? = some c := by
      rw [he, List.head?_append, hc1]
      rfl
    exact head?_dropWhile_fails _ _ c hc2
  · intro c hc
    have hc1 : (((u.data.dropWhile isJSWhiteSpace).reverse.dropWhile isJSWhiteSpace).reverse).getLast? =
        some c := hc
    rw [List.getLast?_reverse] at hc1
    exact head?_dropWhile_fails _ _ c hc1

/-- C5: with a non-empty selection, a chosen side and the prompt accepted,
`manualPlaceOrder` issues exactly one request, the POST to
`/api/tasks/manual_order` with the trimmed URL, the selected ids in insertion
order and the side; the URL sent is the text of the field without the white
space at its two ends and begins and ends with a character that is not white
space; the inline status then shows the returned message (green on success, red
behind the words for a failed order otherwise; a successful response without
message shows its counts); and a timer is set, to 5000 ms and with a callback
that empties the inline status, if and only if the response had
`success = true`. -/
theorem manualPlaceOrder_confirmed (b : Backend) (st : St) (side : String)
    (hne : st.selectedAccounts.size ≠ 0) (hside : st.orderSide = some side) :
    (St.newEvents st (manualPlaceOrder b true st)).filter Ev.isFetch =
      [manualOrderRequest (jsTrim st.marketUrl) st.selectedAccounts.elems side] ∧
    (∃ lead trail : List Char,
      st.marketUrl.data = lead ++ (jsTrim st.marketUrl).data ++ trail ∧
      (∀ c ∈ lead, isJSWhiteSpace c = true) ∧ (∀ c ∈ trail, isJSWhiteSpace c = true) ∧
      (∀ c, (jsTrim st.marketUrl).data.head? = some c → isJSWhiteSpace c = false) ∧
      (∀ c, (jsTrim st.marketUrl).data.getLast? = some c → isJSWhiteSpace c = false)) ∧
    (∀ r, b.manualOrder (jsTrim st.marketUrl) st.selectedAccounts.elems side = .ok r →
      r.success = true →
      (manualPlaceOrder b true st).manualOrderStatus =
        statusSpan "green" (jsOr r.message (manualOrderSummary r)) ∧
      (∀ m, r.message = some m → m ≠ "" →
        (manualPlaceOrder b true st).manualOrderStatus =
          "<span style=\"color: green;\">" ++ m ++ "</span>") ∧
      (St.newEvents st (manualPlaceOrder b true st)).filter Ev.isTimer =
        [.setTimeout .clearManualOrderStatus 5000] ∧
      (∀ later : St,
        Callback.run .clearManualOrderStatus later = { later with manualOrderStatus := "" }) ∧
      (Callback.run .clearManualOrderStatus (manualPlaceOrder b true st)).manualOrderStatus = "") ∧
    (∀ r, b.manualOrder (jsTrim st.marketUrl) st.selectedAccounts.elems side = .ok r →
      r.success = false →
      (manualPlaceOrder b true st).manualOrderStatus =
        statusSpan "red" ("下单失败: " ++ jsString r.message) ∧
      (∀ m, r.message = some m →
        (manualPlaceOrder b true st).manualOrderStatus =
          "<span style=\"color: red;\">下单失败: " ++ m ++ "</span>") ∧
      (St.newEvents st (manualPlaceOrder b true st)).filter Ev.isTimer = []) ∧
    (∀ e, b.manualOrder (jsTrim st.marketUrl) st.selectedAccounts.elems side = .error e →
      (manualPlaceOrder b true st).manualOrderStatus =
        "<span style=\"color: red;\">下单失败: " ++ e ++ "</span>" ∧
      (St.newEvents st (manualPlaceOrder b true st)).filter Ev.isTimer = []) := by
  obtain ⟨prompt, h⟩ := manualPlaceOrder_run b st side hne hside
  have hred : "<span style=\"color: red;\">" ++ "下单失败: " =
      "<span style=\"color: red;\">下单失败: " := by decide
  rw [h]
  refine ⟨?_, jsTrim_spec st.marketUrl, ?_, ?_, ?_⟩
  · cases hb : b.manualOrder (jsTrim st.marketUrl) st.selectedAccounts.elems side with
    | ok r =>
      cases hs : r.success <;>
        simp [hs, St.newEvents, Ev.isFetch, manualOrderRequest, List.filter]
    | error e => simp [St.newEvents, Ev.isFetch, manualOrderRequest, List.filter]
  · intro r hb hs
    refine ⟨?_, ?_, ?_, fun later => rfl, ?_⟩
    · simp [hb, hs]
    · intro m hm hm0
      simp [hb, hs, hm, jsOr, hm0, statusSpan, String.append_assoc]
    · simp [hb, hs, St.newEvents, Ev.isTimer, List.filter]
    · rfl
  · intro r hb hs
    refine ⟨?_, ?_, ?_⟩
    · simp [hb, hs]
    · intro m hm
      simp [hb, hs, hm, jsString, statusSpan, String.append_assoc]
      rw [← String.append_assoc, hred]
    · simp [hb, hs, St.newEvents, Ev.isTimer, List.filter]
  · intro e hb
    refine ⟨?_, by simp [hb, St.newEvents, Ev.isTimer, List.filter]⟩
    simp [hb, statusSpan, String.append_assoc]
    rw [← String.append_assoc, hred]

/-- C5 at the selection `{1, 2}`, side YES and the field holding
`https://x/market/abc` between a tab, blanks, an ideographic space, a
no-break space and a line feed: one POST with the URL freed of them,
`account_ids` `[1, 2]` and side YES, a green status with the returned message,
one timer of 5000 ms, and an empty status once its callback has run. -/
theorem manualPlaceOrder_confirmed_witness :
    (St.newEvents
      { St.blank [1, 2] [] with
        marketUrl := "\t \u3000https://x/market/abc\u00a0 \n", orderSide := some "YES" }
      (manualPlaceOrder (Backend.answering fun _ => true) true
        { St.blank [1, 2] [] with
          marketUrl := "\t \u3000https://x/market/abc\u00a0 \n", orderSide := some "YES" })).filter
        Ev.isFetch =
      [.fetch ⟨.POST, .manualOrder, some (.manualOrder "https://x/market/abc" [1, 2] "YES")⟩] ∧
    (manualPlaceOrder (Backend.answering fun _ => true) true
      { St.blank [1, 2] [] with
        marketUrl := "\t \u3000https://x/market/abc\u00a0 \n", orderSide := some "YES" }).manualOrderStatus =
      "<span style=\"color: green;\">ordered</span>" ∧
    (St.newEvents
      { St.blank [1, 2] [] with
        marketUrl := "\t \u3000https://x/market/abc\u00a0 \n", orderSide := some "YES" }
      (manualPlaceOrder (Backend.answering fun _ => true) true
        { St.blank [1, 2] [] with
          marketUrl := "\t \u3000https://x/market/abc\u00a0 \n", orderSide := some "YES" })).filter
        Ev.isTimer = [.setTimeout .clearManualOrderStatus 5000] ∧
    (Callback.run .clearManualOrderStatus
      (manualPlaceOrder (Backend.answering fun _ => true) true
        { St.blank [1, 2] [] with
          marketUrl := "\t \u3000https://x/market/abc\u00a0 \n",
          orderSide := some "YES" })).manualOrderStatus = "" := by
  have h := manualPlaceOrder_confirmed (Backend.answering fun _ => true)
    { St.blank [1, 2] [] with
      marketUrl := "\t \u3000https://x/market/abc\u00a0 \n", orderSide := some "YES" } "YES"
    (by decide) rfl
  have htrim : jsTrim "\t \u3000https://x/market/abc\u00a0 \n" = "https://x/market/abc" := by
    decide
  have h2 := h.2.2.1 ⟨true, some "ordered", none, none⟩ rfl rfl
  refine ⟨?_, (h2.2.1 "ordered" rfl (by decide)).trans (by decide), h2.2.2.1, h2.2.2.2.2⟩
  have h1 := h.1
  simp only [htrim] at h1
  exact h1

/-! ## Deleting an account -/

/-- C6: when the user confirms `deleteAccount(id)`, a response with
`success = true` turns the selection set into the old one without `id` (whether
or not `id` is running) and leaves the running set as it was; a response with
`success = false` or a failed request leaves both sets as they were. -/
theorem deleteAccount_confirmed_sets (b : Backend) (st : St) (id : AccountId) :
    (∀ r, b.deleteAccount id = .ok r → r.success = true →
      (deleteAccount b true id st).selectedAccounts = st.selectedAccounts.delete id ∧
      (∀ x, x ∈ (deleteAccount b true id st).selectedAccounts.elems ↔
        x ≠ id ∧ x ∈ st.selectedAccounts.elems) ∧
      (deleteAccount b true id st).runningAccountIds = st.runningAccountIds) ∧
    (∀ r, b.deleteAccount id = .ok r → r.success = false →
      (deleteAccount b true id st).selectedAccounts = st.selectedAccounts ∧
      (deleteAccount b true id st).runningAccountIds = st.runningAccountIds) ∧
    (∀ e, b.deleteAccount id = .error e →
      (deleteAccount b true id st).selectedAccounts = st.selectedAccounts ∧
      (deleteAccount b true id st).runningAccountIds = st.runningAccountIds) := by
  refine ⟨?_, ?_, ?_⟩
  · intro r hr hs
    have h1 : (deleteAccount b true id st).selectedAccounts = st.selectedAccounts.delete id := by
      simp [deleteAccount, hr, hs, St.fetch, St.alert, St.call, St.emit]
    refine ⟨h1, ?_, ?_⟩
    · intro x
      rw [h1, JSSet.mem_delete]
    · simp [deleteAccount, hr, hs, St.fetch, St.alert, St.call, St.emit]
  · intro r hr hs
    constructor <;> simp [deleteAccount, hr, hs, St.fetch, St.alert, St.emit]
  · intro e he
    constructor <;> simp [deleteAccount, he, St.fetch, St.alert, St.consoleError, St.emit]

/-- C6 with account 5 both selected and running: after a successful delete 5 is
no longer selected and still in the running set. -/
theorem deleteAccount_confirmed_sets_witness :
    (deleteAccount (Backend.answering fun _ => true) true 5 (St.blank [5, 6] [5])).selectedAccounts =
      ⟨[6]⟩ ∧
    (deleteAccount (Backend.answering fun _ => true) true 5 (St.blank [5, 6] [5])).runningAccountIds =
      ⟨[5]⟩ := by
  have h := (deleteAccount_confirmed_sets (Backend.answering fun _ => true) (St.blank [5, 6] [5]) 5).1
    ⟨true, some "deleted"⟩ rfl rfl
  exact ⟨h.1.trans (by decide), h.2.2⟩

/-! ## Strategy configuration -/

theorem roundDouble_one_fortieth :
    roundDouble (1 / 40) = .fin (3602879701896397 / 144115188075855872) := by
  have hn : ((1 : ℚ) / 40).num.natAbs = 1 := by norm_num
  have hd : ((1 : ℚ) / 40).den = 40 := by norm_num
  have hf : floorLog2 1 40 = -6 := by simp [floorLog2, Nat.log2]
  have he : max ((-6 : ℤ) - 52) (-1074) = -58 := by decide
  have h1 : (-(-58 : ℤ)).toNat = 58 := by decide
  have h2 : (-58 : ℤ).toNat = 0 := by decide
  have hm : roundHalfEven (1 * 2 ^ 58) (40 * 2 ^ 0) = 7205759403792794 := by decide
  unfold roundDouble
  rw [if_neg (by norm_num)]
  simp only [hn, hd, hf, he, h1, h2, hm]
  norm_num

theorem roundDouble_five_halves : roundDouble (5 / 2) = .fin (5 / 2) := by
  have hn : ((5 : ℚ) / 2).num.natAbs = 5 := by norm_num
  have hd : ((5 : ℚ) / 2).den = 2 := by norm_num
  have hf : floorLog2 5 2 = 1 := by simp [floorLog2, Nat.log2]
  have he : max ((1 : ℤ) - 52) (-1074) = -51 := by decide
  have h1 : (-(-51 : ℤ)).toNat = 51 := by decide
  have h2 : (-51 : ℤ).toNat = 0 := by decide
  have hm : roundHalfEven (5 * 2 ^ 51) (2 * 2 ^ 0) = 5629499534213120 := by decide
  unfold roundDouble
  rw [if_neg (by norm_num)]
  simp only [hn, hd, hf, he, h1, h2, hm]
  norm_num

/-- C7: the one request of `updateStrategyConfig` is the PUT to
`/api/strategy/config` whose body has `price_percentage_threshold` equal to the
number of the `priceThreshold` field divided by 100 (for a finite `p`, the
double nearest to `p / 100`) and the other three fields as entered; for the
input 2.5 the field is the double 0.025. -/
theorem updateStrategyConfig_threshold_divided (b : Backend) (st : St) :
    ∃ config : StrategyConfig,
      (St.newEvents st (updateStrategyConfig b st)).filter Ev.isFetch =
        [.fetch ⟨.PUT, .strategyConfig, some (.strategyConfig config)⟩] ∧
      config.price_percentage_threshold = jsDiv st.strategyForm.priceThreshold (.fin 100) ∧
      (∀ p : ℚ, st.strategyForm.priceThreshold = .fin p →
        config.price_percentage_threshold = roundDouble (p / 100)) ∧
      config.order_amount_usd = st.strategyForm.orderAmount ∧
      config.check_time_window_minutes = st.strategyForm.timeWindow ∧
      config.monitor_interval = st.strategyForm.monitorInterval ∧
      (st.strategyForm.priceThreshold = roundDouble (5 / 2) →
        config.price_percentage_threshold = roundDouble (25 / 1000) ∧
        config.price_percentage_threshold =
          .fin (3602879701896397 / 144115188075855872)) := by
  refine ⟨strategyConfigOfForm st.strategyForm, ?_, rfl, ?_, rfl, rfl, rfl, ?_⟩
  · unfold updateStrategyConfig
    cases hb : b.strategyConfig (strategyConfigOfForm st.strategyForm) with
    | ok r =>
      cases hs : r.success <;>
        simp [hb, hs, St.newEvents, St.fetch, St.alert, St.emit, Ev.isFetch, List.filter]
    | error e =>
      simp [hb, St.newEvents, St.fetch, St.alert, St.consoleError, St.emit, Ev.isFetch, List.filter]
  · intro p hp
    simp [strategyConfigOfForm, hp, jsDiv]
  · intro hp
    have h : (strategyConfigOfForm st.strategyForm).price_percentage_threshold =
        roundDouble (1 / 40) := by
      simp only [strategyConfigOfForm, hp, roundDouble_five_halves, jsDiv]
      rw [if_neg (by norm_num)]
      norm_num
    have h25 : ((25 : ℚ) / 1000) = 1 / 40 := by norm_num
    exact ⟨by rw [h, h25], by rw [h, roundDouble_one_fortieth]⟩

/-- C7 on a form whose `priceThreshold` field holds 2.5: the body sent has
`price_percentage_threshold` 0.025, as a double. -/
theorem updateStrategyConfig_threshold_divided_witness :
    (St.newEvents { St.blank [] [] with strategyForm := ⟨.fin 10, .fin (5 / 2), .fin 15, .fin 3⟩ }
      (updateStrategyConfig (Backend.answering fun _ => true)
        { St.blank [] [] with strategyForm := ⟨.fin 10, .fin (5 / 2), .fin 15, .fin 3⟩ })).filter
        Ev.isFetch =
      [.fetch ⟨.PUT, .strategyConfig, some (.strategyConfig
        ⟨.fin 10, .fin (3602879701896397 / 144115188075855872), .fin 15, .fin 3⟩)⟩] := by
  obtain ⟨config, h, -, -, h1, h2, h3, h4⟩ := updateStrategyConfig_threshold_divided
    (Backend.answering fun _ => true)
    { St.blank [] [] with strategyForm := ⟨.fin 10, .fin (5 / 2), .fin 15, .fin 3⟩ }
  have h5 := (h4 roundDouble_five_halves.symm).2
  rw [h]
  cases config
  simp only at h1 h2 h3 h5
  subst h1 h2 h3 h5
  rfl

/-! ## Stopping an account that is not running -/

theorem stopAccount_run (b : Backend) (id : AccountId) (st : St) :
    stopAccount b id st =
      match b.tasksStop id with
      | .ok result =>
        if result.success then
          { st with
            runningAccountIds := st.runningAccountIds.delete id
            log := st.log ++ [stopRequest id, .alert "账号停止成功", .call .loadAccounts,
              .call .loadRunningStatus] }
        else
          { st with
            log := st.log ++ [stopRequest id, .alert ("停止失败: " ++ jsString result.message)] }
      | .error error =>
        { st with
          log := st.log ++ [stopRequest id, .consoleError "停止账号失败:" error,
            .alert ("停止失败: " ++ error)] } := by
  unfold stopAccount
  cases hb : b.tasksStop id with
  | ok r =>
    cases hs : r.success <;> simp [hs, St.fetch, St.alert, St.call, St.emit, stopRequest]
  | error e => simp [St.fetch, St.alert, St.consoleError, St.emit, stopRequest]

theorem stopAccountSilent_run (b : Backend) (id : AccountId) (st : St) :
    stopAccountSilent b id st =
      match b.tasksStop id with
      | .ok result =>
        if result.success then
          { st with
            runningAccountIds := st.runningAccountIds.delete id
            log := st.log ++ [stopRequest id] }
        else { st with log := st.log ++ [stopRequest id] }
      | .error error =>
        { st with
          log := st.log ++ [stopRequest id,
            .consoleError ("停止账号 " ++ toString id ++ " 失败:") error] } := by
  unfold stopAccountSilent stopAccountSilentResume
  cases hb : b.tasksStop id with
  | ok r =>
    cases hs : r.success <;> simp [hs, St.fetch, St.emit, stopRequest]
  | error e => simp [St.fetch, St.consoleError, St.emit, stopRequest]

/-- C8: for an id that is not in the running set, `stopAccount` and
`stopAccountSilent` still issue exactly one `POST /api/tasks/stop/id`, leave the
running set as it was whatever the response, and log no caught error when the
request is answered; and for any running set, a second successful stop of the
same id leaves the running set the first one left. -/
theorem stop_of_absent_id (b : Backend) (st : St) (id : AccountId) :
    (id ∉ st.runningAccountIds.elems →
      (St.newEvents st (stopAccount b id st)).filter Ev.isFetch = [stopRequest id] ∧
      (St.newEvents st (stopAccountSilent b id st)).filter Ev.isFetch = [stopRequest id] ∧
      (stopAccount b id st).runningAccountIds = st.runningAccountIds ∧
      (stopAccountSilent b id st).runningAccountIds = st.runningAccountIds ∧
      (∀ r, b.tasksStop id = .ok r →
        (St.newEvents st (stopAccount b id st)).filter Ev.isConsoleError = [] ∧
        (St.newEvents st (stopAccountSilent b id st)).filter Ev.isConsoleError = [])) ∧
    (∀ b2 : Backend, stopSucceeded b id = true → stopSucceeded b2 id = true →
      (stopAccount b2 id (stopAccount b id st)).runningAccountIds =
        (stopAccount b id st).runningAccountIds ∧
      (stopAccountSilent b2 id (stopAccountSilent b id st)).runningAccountIds =
        (stopAccountSilent b id st).runningAccountIds) := by
  constructor
  · intro h
    have hdel := JSSet.delete_of_not_mem _ _ h
    rw [stopAccount_run, stopAccountSilent_run]
    cases hb : b.tasksStop id with
    | ok r =>
      cases hs : r.success <;>
        simp [hs, hdel, St.newEvents, Ev.isFetch, Ev.isConsoleError, stopRequest, List.filter]
    | error e =>
      simp [St.newEvents, Ev.isFetch, Ev.isConsoleError, stopRequest, List.filter]
  · intro b2 h1 h2
    rw [stopAccount_run b2, stopAccountSilent_run b2, stopAccount_run b, stopAccountSilent_run b]
    unfold stopSucceeded at h1 h2
    cases hb : b.tasksStop id with
    | ok r =>
      cases hb2 : b2.tasksStop id with
      | ok r2 =>
        rw [hb] at h1
        rw [hb2] at h2
        simp only at h1 h2
        simp [h1, h2, JSSet.delete_delete]
      | error e => simp [hb2] at h2
    | error e => simp [hb] at h1

/-- C8 on a page where only account 4 runs: stopping account 9, with a
successful and with a failing response, issues the one stop request and leaves
the running set `{4}`. -/
theorem stop_of_absent_id_witness :
    (St.newEvents (St.blank [] [4]) (stopAccount (Backend.answering fun _ => true) 9
      (St.blank [] [4]))).filter Ev.isFetch = [stopRequest 9] ∧
    (stopAccount (Backend.answering fun _ => true) 9 (St.blank [] [4])).runningAccountIds = ⟨[4]⟩ ∧
    (stopAccount (Backend.answering fun _ => false) 9 (St.blank [] [4])).runningAccountIds = ⟨[4]⟩ :=
  ⟨((stop_of_absent_id (Backend.answering fun _ => true) (St.blank [] [4]) 9).1 (by decide)).1,
   ((stop_of_absent_id (Backend.answering fun _ => true) (St.blank [] [4]) 9).1 (by decide)).2.2.1,
   ((stop_of_absent_id (Backend.answering fun _ => false) (St.blank [] [4]) 9).1 (by decide)).2.2.1⟩

/-! ## Independence of the two sets -/

theorem stopAccountSilentResume_eq (b : Backend) (id : AccountId) (st : St) :
    stopAccountSilentResume b id st =
      { st with
        runningAccountIds := if stopSucceeded b id then st.runningAccountIds.delete id
          else st.runningAccountIds
        log := st.log ++ (match b.tasksStop id with
          | .ok _ => []
          | .error e => [Ev.consoleError ("停止账号 " ++ toString id ++ " 失败:") e]) } := by
  unfold stopAccountSilentResume stopSucceeded
  cases h : b.tasksStop id with
  | ok r => cases hs : r.success <;> simp [hs]
  | error e => simp [St.consoleError, St.emit]

theorem foldl_stopResume (b : Backend) (l : List AccountId) (st : St) :
    ∃ evs : List Ev, (∀ e ∈ evs, e.isFetch = false ∧ e.isAlert = false) ∧
      l.foldl (fun st id => stopAccountSilentResume b id st) st =
        { st with
          runningAccountIds :=
            l.foldl (fun s id => if stopSucceeded b id then s.delete id else s) st.runningAccountIds
          log := st.log ++ evs } := by
  induction l generalizing st with
  | nil => exact ⟨[], by simp, by simp⟩
  | cons a l ih =>
    obtain ⟨evs, hevs, h⟩ := ih (stopAccountSilentResume b a st)
    rw [List.foldl_cons, h, stopAccountSilentResume_eq]
    cases hb : b.tasksStop a with
    | ok r => exact ⟨evs, hevs, by simp⟩
    | error e =>
      refine ⟨Ev.consoleError ("停止账号 " ++ toString a ++ " 失败:") e :: evs, ?_, by simp⟩
      intro x hx
      rcases List.mem_cons.mp hx with rfl | hx
      · exact ⟨rfl, rfl⟩
      · exact hevs x hx

theorem stopSelectedAccounts_run (b : Backend) (arrival : List AccountId) (st : St)
    (hne : st.selectedAccounts.size ≠ 0) :
    ∃ evs : List Ev, (∀ e ∈ evs, e.isFetch = false ∧ e.isAlert = false) ∧
      stopSelectedAccounts b arrival st =
        { st with
          runningAccountIds :=
            arrival.foldl (fun s id => if stopSucceeded b id then s.delete id else s)
              st.runningAccountIds
          log := st.log ++ (st.selectedAccounts.elems.map (fun i => Ev.fetch ⟨.POST, .tasksStop i, none⟩) ++
            evs ++ [.call .loadAccounts, .call .loadRunningStatus]) } := by
  obtain ⟨evs, hevs, h⟩ := foldl_stopResume b arrival
    (st.selectedAccounts.elems.foldl (fun st accountId => st.fetch .POST (.tasksStop accountId) none) st)
  refine ⟨evs, hevs, ?_⟩
  simp only [stopSelectedAccounts, if_neg hne]
  rw [h, foldl_fetch]
  simp [St.call, St.emit]

theorem selected_renderAccountsTable (accounts : List Account) (st : St) :
    (renderAccountsTable accounts st).selectedAccounts = st.selectedAccounts := by
  unfold renderAccountsTable
  simp only []
  rw [foldl_renderRow]
  rfl

theorem selected_loadAccounts (b : Backend) (st : St) :
    (loadAccounts b st).selectedAccounts = st.selectedAccounts := by
  unfold loadAccounts
  cases b.getAccounts with
  | ok r =>
    cases hs : r.success
    · simp [hs, St.fetch, St.emit]
    · cases hd : r.data with
      | none => simp [hs, hd, St.fetch, St.consoleError, St.emit]
      | some accounts => simp [hs, hd, selected_renderAccountsTable, St.fetch, St.emit]
  | error e => simp [St.fetch, St.consoleError, St.emit]

theorem selected_refreshBalance (b : Backend) (id : AccountId) (st : St) :
    (refreshBalance b id st).selectedAccounts = st.selectedAccounts := by
  unfold refreshBalance
  cases b.getBalance id with
  | ok r =>
    cases hs : r.success <;> simp [hs, St.setBalanceText, St.fetch, St.alert, St.call, St.emit]
  | error e => simp [St.setBalanceText, St.fetch, St.alert, St.consoleError, St.emit]

theorem selected_startSelectedAccounts (b : Backend) (arrival : List AccountId) (st : St) :
    (startSelectedAccounts b arrival st).selectedAccounts = st.selectedAccounts := by
  by_cases hne : st.selectedAccounts.size = 0
  · simp [startSelectedAccounts, hne, St.alert, St.emit]
  · obtain ⟨_, _, _, _, _, _, h⟩ := startSelectedAccounts_run b arrival st hne
    exact h

theorem selected_stopSelectedAccounts (b : Backend) (arrival : List AccountId) (st : St) :
    (stopSelectedAccounts b arrival st).selectedAccounts = st.selectedAccounts := by
  by_cases hne : st.selectedAccounts.size = 0
  · simp [stopSelectedAccounts, hne, St.alert, St.emit]
  · obtain ⟨_, _, h⟩ := stopSelectedAccounts_run b arrival st hne
    rw [h]

theorem selected_startAccountSilent (b : Backend) (id : AccountId) (st : St) :
    (startAccountSilent b id st).selectedAccounts = st.selectedAccounts := by
  unfold startAccountSilent
  rw [startAccountSilentResume_eq]
  rfl

theorem selected_stopAccountSilent (b : Backend) (id : AccountId) (st : St) :
    (stopAccountSilent b id st).selectedAccounts = st.selectedAccounts := by
  unfold stopAccountSilent
  rw [stopAccountSilentResume_eq]
  rfl

theorem selected_updateRunningAccounts (b : Backend) (st : St) :
    (updateRunningAccounts b st).selectedAccounts = st.selectedAccounts := by
  unfold updateRunningAccounts
  cases b.tasksRunning with
  | ok r => cases hs : r.success <;> simp [hs, St.fetch, St.emit]
  | error e => simp [St.fetch, St.consoleError, St.emit]

theorem selected_startAccount (b : Backend) (id : AccountId) (st : St) :
    (startAccount b id st).selectedAccounts = st.selectedAccounts := by
  unfold startAccount
  cases b.tasksStart id with
  | ok r => cases hs : r.success <;> simp [hs, St.fetch, St.alert, St.call, St.emit]
  | error e => simp [St.fetch, St.alert, St.consoleError, St.emit]

theorem selected_stopAccount (b : Backend) (id : AccountId) (st : St) :
    (stopAccount b id st).selectedAccounts = st.selectedAccounts := by
  rw [stopAccount_run]
  cases b.tasksStop id with
  | ok r => cases hs : r.success <;> simp [hs]
  | error e => simp

theorem selected_redeemAllAccounts (b : Backend) (st : St) :
    (redeemAllAccounts b st).selectedAccounts = st.selectedAccounts := by
  unfold redeemAllAccounts
  cases b.redeemAll with
  | ok r => cases hs : r.success <;> simp [hs, St.fetch, St.alert, St.emit]
  | error e => simp [St.fetch, St.alert, St.consoleError, St.emit]

theorem selected_sellAllAccounts (b : Backend) (confirmed : Bool) (st : St) :
    (sellAllAccounts b confirmed st).selectedAccounts = st.selectedAccounts := by
  unfold sellAllAccounts
  cases confirmed
  · simp [St.emit]
  · cases b.sellAll with
    | ok r => cases hs : r.success <;> simp [hs, St.fetch, St.alert, St.emit]
    | error e => simp [St.fetch, St.alert, St.consoleError, St.emit]

theorem selected_manualPlaceOrder (b : Backend) (confirmed : Bool) (st : St) :
    (manualPlaceOrder b confirmed st).selectedAccounts = st.selectedAccounts := by
  by_cases hne : st.selectedAccounts.size = 0
  · simp [manualPlaceOrder, hne]
  · cases hside : st.orderSide with
    | none => simp [manualPlaceOrder, hne, hside]
    | some side =>
      cases confirmed
      · simp [manualPlaceOrder, hne, hside, St.emit]
      · obtain ⟨_, h⟩ := manualPlaceOrder_run b st side hne hside
        rw [h]
        cases b.manualOrder (jsTrim st.marketUrl) st.selectedAccounts.elems side with
        | ok r => cases hs : r.success <;> simp [hs]
        | error e => simp

theorem selected_deleteAccount_declined (b : Backend) (id : AccountId) (st : St) :
    (deleteAccount b false id st).selectedAccounts = st.selectedAccounts := by
  simp [deleteAccount, St.emit]

theorem selected_deleteAccount_unsuccessful (b : Backend) (id : AccountId) (st : St)
    (h : ¬ ∃ r, b.deleteAccount id = .ok r ∧ r.success = true) :
    (deleteAccount b true id st).selectedAccounts = st.selectedAccounts := by
  unfold deleteAccount
  cases hb : b.deleteAccount id with
  | ok r =>
    cases hs : r.success
    · simp [hs, St.fetch, St.alert, St.emit]
    · exact absurd ⟨r, hb, hs⟩ h
  | error e => simp [St.fetch, St.alert, St.consoleError, St.emit]

theorem selected_submitAddAccountForm (b : Backend) (st : St) :
    (submitAddAccountForm b st).selectedAccounts = st.selectedAccounts := by
  unfold submitAddAccountForm
  cases hb : b.postAccount st.addAccountForm with
  | ok r =>
    cases hs : r.success <;> simp [hb, hs, closeModal, St.fetch, St.alert, St.call, St.emit]
  | error e => simp [hb, St.fetch, St.alert, St.consoleError, St.emit]

theorem selected_submitEditAccountForm (b : Backend) (st : St) :
    (submitEditAccountForm b st).selectedAccounts = st.selectedAccounts := by
  unfold submitEditAccountForm
  cases hb : b.putAccount st.editAccountId st.editAccountForm with
  | ok r =>
    cases hs : r.success <;> simp [hb, hs, closeModal, St.fetch, St.alert, St.call, St.emit]
  | error e => simp [hb, St.fetch, St.alert, St.consoleError, St.emit]

theorem selected_updateStrategyConfig (b : Backend) (st : St) :
    (updateStrategyConfig b st).selectedAccounts = st.selectedAccounts := by
  unfold updateStrategyConfig
  cases hb : b.strategyConfig (strategyConfigOfForm st.strategyForm) with
  | ok r => cases hs : r.success <;> simp [hb, hs, St.fetch, St.alert, St.emit]
  | error e => simp [hb, St.fetch, St.alert, St.consoleError, St.emit]

theorem selected_loadRunningStatus (b : Backend) (st : St) :
    (loadRunningStatus b st).selectedAccounts = st.selectedAccounts := by
  unfold loadRunningStatus
  cases b.tasksRunning with
  | ok r =>
    cases hs : r.success
    · simp [hs, St.fetch, St.emit]
    · cases b.getAccounts with
      | ok ar =>
        cases has : ar.success
        · simp [hs, has, St.fetch, St.emit]
        · cases hd : ar.data <;> simp [hs, has, hd, St.fetch, St.consoleError, St.emit]
      | error e => simp [hs, St.fetch, St.consoleError, St.emit]
  | error e => simp [St.fetch, St.consoleError, St.emit]

theorem selected_updateSchedulerStatus (b : Backend) (st : St) :
    (updateSchedulerStatus b st).selectedAccounts = st.selectedAccounts := by
  unfold updateSchedulerStatus
  cases b.schedulerStatus with
  | ok r =>
    cases hs : r.success
    · simp [hs, St.fetch, St.emit]
    · cases hel : st.schedulerStatus <;> simp [hs, hel, St.fetch, St.emit]
  | error e => simp [St.fetch, St.consoleError, St.emit]

theorem selected_editAccount (b : Backend) (id : AccountId) (st : St) :
    (editAccount b id st).selectedAccounts = st.selectedAccounts := by
  unfold editAccount
  cases b.getAccounts with
  | ok r =>
    cases hs : r.success
    · simp [hs, St.fetch, St.alert, St.emit]
    · cases hd : r.data with
      | none => simp [hs, hd, St.fetch, St.alert, St.consoleError, St.emit]
      | some data =>
        cases hf : data.find? (fun acc => decide (acc.id = id)) <;>
          simp [hs, hd, hf, St.fetch, St.alert, St.emit]
  | error e => simp [St.fetch, St.alert, St.consoleError, St.emit]

/-- C9: `toggleAccountSelection(id, checked)` leaves the running set as it was
and makes the selection contain `id` exactly when `checked`, other ids
untouched; every function that writes the running set leaves the selection as
it was, under every backend response; and a run of any function of the script
that changes the selection is a `toggleAccountSelection` or a confirmed
`deleteAccount` answered with `success = true`. -/
theorem selection_running_independent (b : Backend) (st : St) :
    (∀ id checked,
      (toggleAccountSelection id checked st).runningAccountIds = st.runningAccountIds ∧
      (toggleAccountSelection id checked st).selectedAccounts.has id = checked ∧
      ∀ x, x ≠ id →
        (toggleAccountSelection id checked st).selectedAccounts.has x = st.selectedAccounts.has x) ∧
    (∀ id arrival,
      (startAccount b id st).selectedAccounts = st.selectedAccounts ∧
      (stopAccount b id st).selectedAccounts = st.selectedAccounts ∧
      (startAccountSilent b id st).selectedAccounts = st.selectedAccounts ∧
      (stopAccountSilent b id st).selectedAccounts = st.selectedAccounts ∧
      (startSelectedAccounts b arrival st).selectedAccounts = st.selectedAccounts ∧
      (stopSelectedAccounts b arrival st).selectedAccounts = st.selectedAccounts ∧
      (updateRunningAccounts b st).selectedAccounts = st.selectedAccounts ∧
      (loadRunningStatus b st).selectedAccounts = st.selectedAccounts) ∧
    (∀ a : Action, (perform b a st).selectedAccounts ≠ st.selectedAccounts →
      (∃ id checked, a = .toggleAccountSelection id checked) ∨
      (∃ id r, a = .deleteAccount true id ∧ b.deleteAccount id = .ok r ∧ r.success = true)) := by
  refine ⟨?_, ?_, ?_⟩
  · intro id checked
    refine ⟨?_, ?_, ?_⟩
    · cases checked <;> simp [toggleAccountSelection, updateSelectedCount]
    · cases checked <;>
        simp [toggleAccountSelection, updateSelectedCount, JSSet.has_add, JSSet.has_delete]
    · intro x hx
      cases checked <;>
        simp [toggleAccountSelection, updateSelectedCount, JSSet.has_add, JSSet.has_delete, hx]
  · intro id arrival
    exact ⟨selected_startAccount b id st, selected_stopAccount b id st,
      selected_startAccountSilent b id st, selected_stopAccountSilent b id st,
      selected_startSelectedAccounts b arrival st, selected_stopSelectedAccounts b arrival st,
      selected_updateRunningAccounts b st, selected_loadRunningStatus b st⟩
  · intro a hne
    cases a with
    | toggleAccountSelection id checked => exact Or.inl ⟨id, checked, rfl⟩
    | deleteAccount confirmed id =>
      cases confirmed
      · exact absurd (selected_deleteAccount_declined b id st) hne
      · by_cases h : ∃ r, b.deleteAccount id = .ok r ∧ r.success = true
        · obtain ⟨r, hr, hs⟩ := h
          exact Or.inr ⟨id, r, rfl, hr, hs⟩
        · exact absurd (selected_deleteAccount_unsuccessful b id st h) hne
    | loadAccounts => exact absurd (selected_loadAccounts b st) hne
    | renderAccountsTable accounts => exact absurd (selected_renderAccountsTable accounts st) hne
    | refreshBalance id => exact absurd (selected_refreshBalance b id st) hne
    | updateSelectedCount => exact absurd rfl hne
    | startSelectedAccounts arrival => exact absurd (selected_startSelectedAccounts b arrival st) hne
    | stopSelectedAccounts arrival => exact absurd (selected_stopSelectedAccounts b arrival st) hne
    | startAccountSilent id => exact absurd (selected_startAccountSilent b id st) hne
    | stopAccountSilent id => exact absurd (selected_stopAccountSilent b id st) hne
    | updateRunningAccounts => exact absurd (selected_updateRunningAccounts b st) hne
    | startAccount id => exact absurd (selected_startAccount b id st) hne
    | stopAccount id => exact absurd (selected_stopAccount b id st) hne
    | redeemAllAccounts => exact absurd (selected_redeemAllAccounts b st) hne
    | sellAllAccounts confirmed => exact absurd (selected_sellAllAccounts b confirmed st) hne
    | manualPlaceOrder confirmed => exact absurd (selected_manualPlaceOrder b confirmed st) hne
    | clearStatusTimeout => exact absurd rfl hne
    | clearMarketUrl => exact absurd rfl hne
    | showAddAccountModal => exact absurd rfl hne
    | closeModal modalId => cases modalId <;> exact absurd rfl hne
    | submitAddAccountForm => exact absurd (selected_submitAddAccountForm b st) hne
    | updateStrategyConfig => exact absurd (selected_updateStrategyConfig b st) hne
    | loadRunningStatus => exact absurd (selected_loadRunningStatus b st) hne
    | updateSchedulerStatus => exact absurd (selected_updateSchedulerStatus b st) hne
    | editAccount id => exact absurd (selected_editAccount b id st) hne
    | submitEditAccountForm => exact absurd (selected_submitEditAccountForm b st) hne

/-! ## Failures shown to the user -/

theorem shown_of_run (b : Backend) (st st1 : St) (pre tail : List Ev) (r0 : Request)
    (words : String)
    (hlog : st1.log = st.log ++ (pre ++ Ev.fetch r0 :: tail))
    (hpre : ∀ e ∈ pre, e.isFetch = false) (htail : ∀ e ∈ tail, e.isFetch = false)
    (hal : ∀ m, b.refusal r0 = some m → Ev.alert (words ++ m) ∈ tail)
    (req : Request) (m : String) (hreq : Ev.fetch req ∈ St.newEvents st st1)
    (hf : b.refusal req = some m) : shown st st1 (words ++ m) := by
  rw [newEvents_append st st1 _ hlog] at hreq
  rcases List.mem_append.mp hreq with h | h
  · have := hpre _ h
    simp [Ev.isFetch] at this
  · rcases List.mem_cons.mp h with h | h
    · have hr : req = r0 := by simpa using h
      subst hr
      refine Or.inl ?_
      rw [newEvents_append st st1 _ hlog]
      exact List.mem_append_right _ (List.mem_cons_of_mem _ (hal m hf))
    · have := htail _ h
      simp [Ev.isFetch] at this

theorem shown_startAccount (b : Backend) (id : AccountId) (st : St) (req : Request) (m : String)
    (hreq : Ev.fetch req ∈ St.newEvents st (startAccount b id st))
    (hf : b.refusal req = some m) : shown st (startAccount b id st) ("启动失败: " ++ m) := by
  cases hb : b.tasksStart id with
  | ok r =>
    cases hs : r.success
    · exact shown_of_run b st _ [] [.alert ("启动失败: " ++ jsString r.message)]
        ⟨.POST, .tasksStart id, none⟩ "启动失败: "
        (by simp [startAccount, hb, hs, St.setBalanceText, St.fetch, St.alert, St.emit])
        (by simp [Ev.isFetch]) (by simp [Ev.isFetch])
        (fun m hm => by
          simp [Backend.refusal, hb, hs] at hm
          simp [hm]) req m hreq hf
    · exact shown_of_run b st _ [] [.alert "账号启动成功", .call .loadAccounts, .call .loadRunningStatus]
        ⟨.POST, .tasksStart id, none⟩ "启动失败: "
        (by simp [startAccount, hb, hs, St.setBalanceText, St.fetch, St.alert, St.call, St.emit])
        (by simp [Ev.isFetch]) (by simp [Ev.isFetch])
        (fun m hm => by simp [Backend.refusal, hb, hs] at hm) req m hreq hf
  | error e =>
    exact shown_of_run b st _ [] [.consoleError "启动账号失败:" e, .alert ("启动失败: " ++ e)]
      ⟨.POST, .tasksStart id, none⟩ "启动失败: "
      (by simp [startAccount, hb, St.setBalanceText, St.fetch, St.alert, St.consoleError, St.emit])
      (by simp [Ev.isFetch]) (by simp [Ev.isFetch])
      (fun m hm => by simp [Backend.refusal, hb] at hm) req m hreq hf

theorem shown_stopAccount (b : Backend) (id : AccountId) (st : St) (req : Request) (m : String)
    (hreq : Ev.fetch req ∈ St.newEvents st (stopAccount b id st))
    (hf : b.refusal req = some m) : shown st (stopAccount b id st) ("停止失败: " ++ m) := by
  cases hb : b.tasksStop id with
  | ok r =>
    cases hs : r.success
    · exact shown_of_run b st _ [] [.alert ("停止失败: " ++ jsString r.message)]
        ⟨.POST, .tasksStop id, none⟩ "停止失败: "
        (by simp [stopAccount, hb, hs, St.setBalanceText, St.fetch, St.alert, St.emit])
        (by simp [Ev.isFetch]) (by simp [Ev.isFetch])
        (fun m hm => by
          simp [Backend.refusal, hb, hs] at hm
          simp [hm]) req m hreq hf
    · exact shown_of_run b st _ [] [.alert "账号停止成功", .call .loadAccounts, .call .loadRunningStatus]
        ⟨.POST, .tasksStop id, none⟩ "停止失败: "
        (by simp [stopAccount, hb, hs, St.setBalanceText, St.fetch, St.alert, St.call, St.emit])
        (by simp [Ev.isFetch]) (by simp [Ev.isFetch])
        (fun m hm => by simp [Backend.refusal, hb, hs] at hm) req m hreq hf
  | error e =>
    exact shown_of_run b st _ [] [.consoleError "停止账号失败:" e, .alert ("停止失败: " ++ e)]
      ⟨.POST, .tasksStop id, none⟩ "停止失败: "
      (by simp [stopAccount, hb, St.setBalanceText, St.fetch, St.alert, St.consoleError, St.emit])
      (by simp [Ev.isFetch]) (by simp [Ev.isFetch])
      (fun m hm => by simp [Backend.refusal, hb] at hm) req m hreq hf

theorem shown_redeemAllAccounts (b : Backend) (st : St) (req : Request) (m : String)
    (hreq : Ev.fetch req ∈ St.newEvents st (redeemAllAccounts b st))
    (hf : b.refusal req = some m) : shown st (redeemAllAccounts b st) ("索取失败: " ++ m) := by
  cases hb : b.redeemAll with
  | ok r =>
    cases hs : r.success
    · exact shown_of_run b st _ [] [.alert ("索取失败: " ++ jsString r.message)]
        ⟨.POST, .redeemAll, none⟩ "索取失败: "
        (by simp [redeemAllAccounts, hb, hs, St.setBalanceText, St.fetch, St.alert, St.emit])
        (by simp [Ev.isFetch]) (by simp [Ev.isFetch])
        (fun m hm => by
          simp [Backend.refusal, hb, hs] at hm
          simp [hm]) req m hreq hf
    · exact shown_of_run b st _ [] [.alert "已触发所有运行账号的索取，请查看日志"]
        ⟨.POST, .redeemAll, none⟩ "索取失败: "
        (by simp [redeemAllAccounts, hb, hs, St.setBalanceText, St.fetch, St.alert, St.call, St.emit])
        (by simp [Ev.isFetch]) (by simp [Ev.isFetch])
        (fun m hm => by simp [Backend.refusal, hb, hs] at hm) req m hreq hf
  | error e =>
    exact shown_of_run b st _ [] [.consoleError "一键索取失败:" e, .alert ("索取失败: " ++ e)]
      ⟨.POST, .redeemAll, none⟩ "索取失败: "
      (by simp [redeemAllAccounts, hb, St.setBalanceText, St.fetch, St.alert, St.consoleError, St.emit])
      (by simp [Ev.isFetch]) (by simp [Ev.isFetch])
      (fun m hm => by simp [Backend.refusal, hb] at hm) req m hreq hf

theorem shown_submitAddAccountForm (b : Backend) (st : St) (req : Request) (m : String)
    (hreq : Ev.fetch req ∈ St.newEvents st (submitAddAccountForm b st))
    (hf : b.refusal req = some m) : shown st (submitAddAccountForm b st) ("添加失败: " ++ m) := by
  cases hb : b.postAccount st.addAccountForm with
  | ok r =>
    cases hs : r.success
    · exact shown_of_run b st _ [] [.alert ("添加失败: " ++ jsString r.message)]
        ⟨.POST, .accounts, some (.account st.addAccountForm)⟩ "添加失败: "
        (by simp [submitAddAccountForm, closeModal, hb, hs, St.setBalanceText, St.fetch, St.alert, St.emit])
        (by simp [Ev.isFetch]) (by simp [Ev.isFetch])
        (fun m hm => by
          simp [Backend.refusal, hb, hs] at hm
          simp [hm]) req m hreq hf
    · exact shown_of_run b st _ [] [.alert "账号添加成功", .call .loadAccounts]
        ⟨.POST, .accounts, some (.account st.addAccountForm)⟩ "添加失败: "
        (by simp [submitAddAccountForm, closeModal, hb, hs, St.setBalanceText, St.fetch, St.alert, St.call, St.emit])
        (by simp [Ev.isFetch]) (by simp [Ev.isFetch])
        (fun m hm => by simp [Backend.refusal, hb, hs] at hm) req m hreq hf
  | error e =>
    exact shown_of_run b st _ [] [.consoleError "添加账号失败:" e, .alert ("添加失败: " ++ e)]
      ⟨.POST, .accounts, some (.account st.addAccountForm)⟩ "添加失败: "
      (by simp [submitAddAccountForm, closeModal, hb, St.setBalanceText, St.fetch, St.alert, St.consoleError, St.emit])
      (by simp [Ev.isFetch]) (by simp [Ev.isFetch])
      (fun m hm => by simp [Backend.refusal, hb] at hm) req m hreq hf

theorem shown_submitEditAccountForm (b : Backend) (st : St) (req : Request) (m : String)
    (hreq : Ev.fetch req ∈ St.newEvents st (submitEditAccountForm b st))
    (hf : b.refusal req = some m) : shown st (submitEditAccountForm b st) ("更新失败: " ++ m) := by
  cases hb : b.putAccount st.editAccountId st.editAccountForm with
  | ok r =>
    cases hs : r.success
    · exact shown_of_run b st _ [] [.alert ("更新失败: " ++ jsString r.message)]
        ⟨.PUT, .account st.editAccountId, some (.account st.editAccountForm)⟩ "更新失败: "
        (by simp [submitEditAccountForm, closeModal, hb, hs, St.setBalanceText, St.fetch, St.alert, St.emit])
        (by simp [Ev.isFetch]) (by simp [Ev.isFetch])
        (fun m hm => by
          simp [Backend.refusal, hb, hs] at hm
          simp [hm]) req m hreq hf
    · exact shown_of_run b st _ [] [.alert "账号更新成功", .call .loadAccounts]
        ⟨.PUT, .account st.editAccountId, some (.account st.editAccountForm)⟩ "更新失败: "
        (by simp [submitEditAccountForm, closeModal, hb, hs, St.setBalanceText, St.fetch, St.alert, St.call, St.emit])
        (by simp [Ev.isFetch]) (by simp [Ev.isFetch])
        (fun m hm => by simp [Backend.refusal, hb, hs] at hm) req m hreq hf
  | error e =>
    exact shown_of_run b st _ [] [.consoleError "更新账号失败:" e, .alert ("更新失败: " ++ e)]
      ⟨.PUT, .account st.editAccountId, some (.account st.editAccountForm)⟩ "更新失败: "
      (by simp [submitEditAccountForm, closeModal, hb, St.setBalanceText, St.fetch, St.alert, St.consoleError, St.emit])
      (by simp [Ev.isFetch]) (by simp [Ev.isFetch])
      (fun m hm => by simp [Backend.refusal, hb] at hm) req m hreq hf

theorem shown_updateStrategyConfig (b : Backend) (st : St) (req : Request) (m : String)
    (hreq : Ev.fetch req ∈ St.newEvents st (updateStrategyConfig b st))
    (hf : b.refusal req = some m) : shown st (updateStrategyConfig b st) ("更新失败: " ++ m) := by
  cases hb : b.strategyConfig (strategyConfigOfForm st.strategyForm) with
  | ok r =>
    cases hs : r.success
    · exact shown_of_run b st _ [] [.alert ("更新失败: " ++ jsString r.message)]
        ⟨.PUT, .strategyConfig, some (.strategyConfig (strategyConfigOfForm st.strategyForm))⟩ "更新失败: "
        (by simp [updateStrategyConfig, hb, hs, St.setBalanceText, St.fetch, St.alert, St.emit])
        (by simp [Ev.isFetch]) (by simp [Ev.isFetch])
        (fun m hm => by
          simp [Backend.refusal, hb, hs] at hm
          simp [hm]) req m hreq hf
    · exact shown_of_run b st _ [] [.alert "策略配置更新成功"]
        ⟨.PUT, .strategyConfig, some (.strategyConfig (strategyConfigOfForm st.strategyForm))⟩ "更新失败: "
        (by simp [updateStrategyConfig, hb, hs, St.setBalanceText, St.fetch, St.alert, St.call, St.emit])
        (by simp [Ev.isFetch]) (by simp [Ev.isFetch])
        (fun m hm => by simp [Backend.refusal, hb, hs] at hm) req m hreq hf
  | error e =>
    exact shown_of_run b st _ [] [.consoleError "更新策略配置失败:" e, .alert ("更新失败: " ++ e)]
      ⟨.PUT, .strategyConfig, some (.strategyConfig (strategyConfigOfForm st.strategyForm))⟩ "更新失败: "
      (by simp [updateStrategyConfig, hb, St.setBalanceText, St.fetch, St.alert, St.consoleError, St.emit])
      (by simp [Ev.isFetch]) (by simp [Ev.isFetch])
      (fun m hm => by simp [Backend.refusal, hb] at hm) req m hreq hf

theorem shown_refreshBalance (b : Backend) (id : AccountId) (st : St) (req : Request) (m : String)
    (hreq : Ev.fetch req ∈ St.newEvents st (refreshBalance b id st))
    (hf : b.refusal req = some m) : shown st (refreshBalance b id st) ("刷新余额失败: " ++ m) := by
  cases hb : b.getBalance id with
  | ok r =>
    cases hs : r.success
    · exact shown_of_run b st _ [] [.alert ("刷新余额失败: " ++ jsString r.message)]
        ⟨.GET, .accountBalance id, none⟩ "刷新余额失败: "
        (by simp [refreshBalance, hb, hs, St.setBalanceText, St.fetch, St.alert, St.emit])
        (by simp [Ev.isFetch]) (by simp [Ev.isFetch])
        (fun m hm => by
          simp [Backend.refusal, hb, hs] at hm
          simp [hm]) req m hreq hf
    · exact shown_of_run b st _ [] [.call .loadAccounts]
        ⟨.GET, .accountBalance id, none⟩ "刷新余额失败: "
        (by simp [refreshBalance, hb, hs, St.setBalanceText, St.fetch, St.alert, St.call, St.emit])
        (by simp [Ev.isFetch]) (by simp [Ev.isFetch])
        (fun m hm => by simp [Backend.refusal, hb, hs] at hm) req m hreq hf
  | error e =>
    exact shown_of_run b st _ [] [.consoleError "刷新余额失败:" e, .alert ("刷新余额失败: " ++ e)]
      ⟨.GET, .accountBalance id, none⟩ "刷新余额失败: "
      (by simp [refreshBalance, hb, St.setBalanceText, St.fetch, St.alert, St.consoleError, St.emit])
      (by simp [Ev.isFetch]) (by simp [Ev.isFetch])
      (fun m hm => by simp [Backend.refusal, hb] at hm) req m hreq hf

theorem shown_deleteAccount (b : Backend) (confirmed : Bool) (id : AccountId) (st : St)
    (req : Request) (m : String)
    (hreq : Ev.fetch req ∈ St.newEvents st (deleteAccount b confirmed id st))
    (hf : b.refusal req = some m) :
    shown st (deleteAccount b confirmed id st) ("删除失败: " ++ m) := by
  cases confirmed
  · simp [deleteAccount, St.newEvents, St.emit] at hreq
  · cases hb : b.deleteAccount id with
    | ok r =>
      cases hs : r.success
      · exact shown_of_run b st _ [.confirm "确定要删除这个账号吗？"]
          [.alert ("删除失败: " ++ jsString r.message)] ⟨.DELETE, .account id, none⟩ "删除失败: "
          (by simp [deleteAccount, hb, hs, St.fetch, St.alert, St.emit]) (by simp [Ev.isFetch])
          (by simp [Ev.isFetch])
          (fun m hm => by
            simp [Backend.refusal, hb, hs] at hm
            simp [hm]) req m hreq hf
      · exact shown_of_run b st _ [.confirm "确定要删除这个账号吗？"]
          [.alert "删除成功", .call .loadAccounts] ⟨.DELETE, .account id, none⟩ "删除失败: "
          (by simp [deleteAccount, hb, hs, St.fetch, St.alert, St.call, St.emit])
          (by simp [Ev.isFetch]) (by simp [Ev.isFetch])
          (fun m hm => by simp [Backend.refusal, hb, hs] at hm) req m hreq hf
    | error e =>
      exact shown_of_run b st _ [.confirm "确定要删除这个账号吗？"]
        [.consoleError "删除账号失败:" e, .alert ("删除失败: " ++ e)] ⟨.DELETE, .account id, none⟩
        "删除失败: "
        (by simp [deleteAccount, hb, St.fetch, St.alert, St.consoleError, St.emit])
        (by simp [Ev.isFetch]) (by simp [Ev.isFetch])
        (fun m hm => by simp [Backend.refusal, hb] at hm) req m hreq hf

theorem shown_sellAllAccounts (b : Backend) (confirmed : Bool) (st : St)
    (req : Request) (m : String)
    (hreq : Ev.fetch req ∈ St.newEvents st (sellAllAccounts b confirmed st))
    (hf : b.refusal req = some m) :
    shown st (sellAllAccounts b confirmed st) ("出售失败: " ++ m) := by
  cases confirmed
  · simp [sellAllAccounts, St.newEvents, St.emit] at hreq
  · cases hb : b.sellAll with
    | ok r =>
      cases hs : r.success
      · exact shown_of_run b st _
          [.confirm "确定要出售所有运行账号的持仓吗？这将立即卖出所有持仓，不等结算。"]
          [.alert ("出售失败: " ++ jsString r.message)] ⟨.POST, .sellAll, none⟩ "出售失败: "
          (by simp [sellAllAccounts, hb, hs, St.fetch, St.alert, St.emit]) (by simp [Ev.isFetch])
          (by simp [Ev.isFetch])
          (fun m hm => by
            simp [Backend.refusal, hb, hs] at hm
            simp [hm]) req m hreq hf
      · exact shown_of_run b st _
          [.confirm "确定要出售所有运行账号的持仓吗？这将立即卖出所有持仓，不等结算。"]
          [.alert (jsOr r.message ("已触发出售，成功: " ++ toString (jsOrZero r.sold_count) ++
            ", 失败: " ++ toString (jsOrZero r.failed_count)) ++ "\n请查看日志了解详细信息")]
          ⟨.POST, .sellAll, none⟩ "出售失败: "
          (by simp [sellAllAccounts, hb, hs, St.fetch, St.alert, St.emit])
          (by simp [Ev.isFetch]) (by simp [Ev.isFetch])
          (fun m hm => by simp [Backend.refusal, hb, hs] at hm) req m hreq hf
    | error e =>
      exact shown_of_run b st _
        [.confirm "确定要出售所有运行账号的持仓吗？这将立即卖出所有持仓，不等结算。"]
        [.consoleError "一键出售失败:" e, .alert ("出售失败: " ++ e)] ⟨.POST, .sellAll, none⟩
        "出售失败: "
        (by simp [sellAllAccounts, hb, St.fetch, St.alert, St.consoleError, St.emit])
        (by simp [Ev.isFetch]) (by simp [Ev.isFetch])
        (fun m hm => by simp [Backend.refusal, hb] at hm) req m hreq hf

theorem filter_isAlert_eq_nil (evs : List Ev) (h : ∀ e ∈ evs, e.isAlert = false) :
    evs.filter Ev.isAlert = [] := by
  apply List.filter_eq_nil_iff.mpr
  intro e he
  simp [h e he]

theorem filter_isAlert_map_fetch (mk : AccountId → Endpoint) (l : List AccountId) :
    (l.map (fun i => Ev.fetch ⟨.POST, mk i, none⟩)).filter Ev.isAlert = [] := by
  apply filter_isAlert_eq_nil
  intro e he
  obtain ⟨i, _, rfl⟩ := List.mem_map.mp he
  rfl

theorem startSelectedAccounts_alerts (b : Backend) (arrival : List AccountId) (st : St)
    (hne : st.selectedAccounts.size ≠ 0) :
    (St.newEvents st (startSelectedAccounts b arrival st)).filter Ev.isAlert =
      match b.startAutoMonitoring with
      | .ok r =>
        if r.success then
          [.alert ("已启动 " ++ toString st.selectedAccounts.size ++ " 个账号的自动监控")]
        else [.alert ("启动自动监控失败: " ++ jsString r.message)]
      | .error e => [.alert ("启动自动监控失败: " ++ e)] := by
  obtain ⟨evs, hevs, h⟩ := foldl_startResume b arrival
    (st.selectedAccounts.elems.foldl (fun st accountId => st.fetch .POST (.tasksStart accountId) none) st)
  have hevs0 := filter_isAlert_eq_nil evs (fun e he => (hevs e he).2)
  have hmap0 := filter_isAlert_map_fetch Endpoint.tasksStart st.selectedAccounts.elems
  simp only [startSelectedAccounts, if_neg hne]
  rw [h, foldl_fetch]
  cases hm : b.startAutoMonitoring with
  | ok r =>
    cases hs : r.success <;>
      simp [hs, St.newEvents, St.fetch, St.alert, St.call, St.emit, List.filter_append, hevs0,
        hmap0, Ev.isAlert, List.filter]
  | error e =>
    simp [St.newEvents, St.fetch, St.alert, St.call, St.consoleError, St.emit, List.filter_append,
      hevs0, hmap0, Ev.isAlert, List.filter]

theorem shown_manualPlaceOrder (b : Backend) (confirmed : Bool) (st : St)
    (req : Request) (m : String)
    (hreq : Ev.fetch req ∈ St.newEvents st (manualPlaceOrder b confirmed st))
    (hf : b.refusal req = some m) :
    shown st (manualPlaceOrder b confirmed st) ("下单失败: " ++ m) := by
  by_cases hne : st.selectedAccounts.size = 0
  · simp [manualPlaceOrder, hne, St.newEvents] at hreq
  · cases hside : st.orderSide with
    | none => simp [manualPlaceOrder, hne, hside, St.newEvents] at hreq
    | some side =>
      cases confirmed
      · simp [manualPlaceOrder, hne, hside, St.newEvents, St.emit] at hreq
      · obtain ⟨prompt, h⟩ := manualPlaceOrder_run b st side hne hside
        rw [h] at hreq ⊢
        cases hb : b.manualOrder (jsTrim st.marketUrl) st.selectedAccounts.elems side with
        | ok r =>
          cases hs : r.success
          · simp [hb, hs, St.newEvents] at hreq
            subst hreq
            simp [Backend.refusal, hb, hs] at hf
            subst hf
            exact Or.inr (by simp [hs])
          · simp [hb, hs, St.newEvents] at hreq
            subst hreq
            simp [Backend.refusal, hb, hs] at hf
        | error e =>
          simp [hb, St.newEvents] at hreq
          subst hreq
          simp [Backend.refusal, hb] at hf

theorem startSelectedAccounts_status (b : Backend) (arrival : List AccountId) (st : St) :
    (startSelectedAccounts b arrival st).manualOrderStatus = st.manualOrderStatus := by
  by_cases hne : st.selectedAccounts.size = 0
  · simp [startSelectedAccounts, hne, St.alert, St.emit]
  · obtain ⟨evs, _, h⟩ := foldl_startResume b arrival
      (st.selectedAccounts.elems.foldl
        (fun st accountId => st.fetch .POST (.tasksStart accountId) none) st)
    simp only [startSelectedAccounts, if_neg hne]
    rw [h, foldl_fetch]
    cases hm : b.startAutoMonitoring with
    | ok r => cases hs : r.success <;> simp [hs, St.fetch, St.alert, St.call, St.emit]
    | error e => simp [St.fetch, St.alert, St.call, St.consoleError, St.emit]

theorem stopSelectedAccounts_silent (b : Backend) (arrival : List AccountId) (st : St)
    (hne : st.selectedAccounts.size ≠ 0) :
    (St.newEvents st (stopSelectedAccounts b arrival st)).filter Ev.isAlert = [] ∧
    (stopSelectedAccounts b arrival st).manualOrderStatus = st.manualOrderStatus := by
  obtain ⟨evs, hevs, h⟩ := stopSelectedAccounts_run b arrival st hne
  have hevs0 := filter_isAlert_eq_nil evs (fun e he => (hevs e he).2)
  have hmap0 := filter_isAlert_map_fetch Endpoint.tasksStop st.selectedAccounts.elems
  rw [h]
  constructor
  · simp [St.newEvents, List.filter_append, hevs0, hmap0, Ev.isAlert, List.filter]
  · rfl

/-- C10, amended: a `success = false` answer to the request of a command is
shown to the user, as the words of the command for a refusal followed by the
message of the answer (in an alert, or as the red inline status of the manual
order), for start, stop, redeem-all, sell-all, manual-order, account create,
update and delete, strategy-config update and balance refresh, and for the
`start_auto_monitoring` request of start-selected; the per-account requests of
start-selected and stop-selected are silent: a stop-selected with a non-empty
selection raises no alert and leaves the inline status alone whatever the
answers, and the one alert of a start-selected with a non-empty selection
reports the `start_auto_monitoring` request only, whatever the per-account
answers. -/
theorem command_failure_surfaced (b : Backend) (st : St) :
    (∀ a : Action, a.isCommand = true →
      (∀ arrival, a ≠ .startSelectedAccounts arrival) →
      (∀ arrival, a ≠ .stopSelectedAccounts arrival) →
      ∀ req m, Ev.fetch req ∈ St.newEvents st (perform b a st) → b.refusal req = some m →
        shown st (perform b a st) (a.failureWords ++ m)) ∧
    (∀ arrival, st.selectedAccounts.size ≠ 0 →
      (St.newEvents st (stopSelectedAccounts b arrival st)).filter Ev.isAlert = [] ∧
      (stopSelectedAccounts b arrival st).manualOrderStatus = st.manualOrderStatus) ∧
    (∀ arrival, st.selectedAccounts.size ≠ 0 →
      (St.newEvents st (startSelectedAccounts b arrival st)).filter Ev.isAlert =
        (match b.startAutoMonitoring with
        | .ok r =>
          if r.success then
            [.alert ("已启动 " ++ toString st.selectedAccounts.size ++ " 个账号的自动监控")]
          else [.alert ("启动自动监控失败: " ++ jsString r.message)]
        | .error e => [.alert ("启动自动监控失败: " ++ e)]) ∧
      (startSelectedAccounts b arrival st).manualOrderStatus = st.manualOrderStatus ∧
      ∀ m, b.refusal ⟨.POST, .startAutoMonitoring, none⟩ = some m →
        Ev.alert ("启动自动监控失败: " ++ m) ∈
          St.newEvents st (startSelectedAccounts b arrival st)) := by
  refine ⟨?_, fun arrival hne => stopSelectedAccounts_silent b arrival st hne, ?_⟩
  · intro a ha hstart hstop req m hreq hf
    cases a with
    | startAccount id => exact shown_startAccount b id st req m hreq hf
    | stopAccount id => exact shown_stopAccount b id st req m hreq hf
    | startSelectedAccounts arrival => exact absurd rfl (hstart arrival)
    | stopSelectedAccounts arrival => exact absurd rfl (hstop arrival)
    | redeemAllAccounts => exact shown_redeemAllAccounts b st req m hreq hf
    | sellAllAccounts confirmed => exact shown_sellAllAccounts b confirmed st req m hreq hf
    | manualPlaceOrder confirmed => exact shown_manualPlaceOrder b confirmed st req m hreq hf
    | submitAddAccountForm => exact shown_submitAddAccountForm b st req m hreq hf
    | submitEditAccountForm => exact shown_submitEditAccountForm b st req m hreq hf
    | deleteAccount confirmed id => exact shown_deleteAccount b confirmed id st req m hreq hf
    | updateStrategyConfig => exact shown_updateStrategyConfig b st req m hreq hf
    | refreshBalance id => exact shown_refreshBalance b id st req m hreq hf
    | _ => simp [Action.isCommand] at ha
  · intro arrival hne
    have halerts := startSelectedAccounts_alerts b arrival st hne
    refine ⟨halerts, ?_, ?_⟩
    · exact startSelectedAccounts_status b arrival st
    · intro m hm
      have hmem : Ev.alert ("启动自动监控失败: " ++ m) ∈
          (St.newEvents st (startSelectedAccounts b arrival st)).filter Ev.isAlert := by
        rw [halerts]
        cases hb : b.startAutoMonitoring with
        | ok r =>
          cases hs : r.success
          · simp [Backend.refusal, hb, hs] at hm
            simp [hs, hm]
          · simp [Backend.refusal, hb, hs] at hm
        | error e => simp [Backend.refusal, hb] at hm
      exact (List.mem_filter.mp hmem).1

/-- C10 as amended, at a stop of account 4 answered with `success = false` and
the message `stop`: the user gets the alert with the words for a failed stop
and that message. -/
theorem command_failure_surfaced_witness :
    Ev.alert "停止失败: stop" ∈ St.newEvents (St.blank [] [4])
      (perform (Backend.answering fun _ => false) (.stopAccount 4) (St.blank [] [4])) := by
  have h := (command_failure_surfaced (Backend.answering fun _ => false) (St.blank [] [4])).1
    (.stopAccount 4) rfl (fun _ h => by cases h) (fun _ h => by cases h)
    ⟨.POST, .tasksStop 4, none⟩ "stop" (by decide) rfl
  rcases h with h | h
  · exact h
  · exact absurd h (by decide)

/-- C10 as stated fails: with the selection `{7}` and the stop of account 7
answered with `success = false`, stop-selected issues that request, raises no
alert and leaves the inline status empty; and with the start of account 7
answered with `success = false`, start-selected issues that request and its
only alert announces that the monitoring of 1 account was started. -/
theorem stopSelected_failure_not_surfaced :
    Action.isCommand (.stopSelectedAccounts [7]) = true ∧
    Ev.fetch ⟨.POST, .tasksStop 7, none⟩ ∈ St.newEvents (St.blank [7] [7])
      (perform (Backend.answering fun _ => false) (.stopSelectedAccounts [7]) (St.blank [7] [7])) ∧
    (Backend.answering fun _ => false).refusal ⟨.POST, .tasksStop 7, none⟩ = some "stop" ∧
    (St.newEvents (St.blank [7] [7])
      (perform (Backend.answering fun _ => false) (.stopSelectedAccounts [7])
        (St.blank [7] [7]))).filter Ev.isAlert = [] ∧
    (perform (Backend.answering fun _ => false) (.stopSelectedAccounts [7])
      (St.blank [7] [7])).manualOrderStatus = "" ∧
    Ev.fetch ⟨.POST, .tasksStart 7, none⟩ ∈ St.newEvents (St.blank [7] [])
      (perform (Backend.answering fun _ => false) (.startSelectedAccounts [7]) (St.blank [7] [])) ∧
    (Backend.answering fun _ => false).refusal ⟨.POST, .tasksStart 7, none⟩ = some "start" ∧
    (St.newEvents (St.blank [7] [])
      (perform (Backend.answering fun _ => false) (.startSelectedAccounts [7])
        (St.blank [7] []))).filter Ev.isAlert = [.alert "已启动 1 个账号的自动监控"] ∧
    (perform (Backend.answering fun _ => false) (.startSelectedAccounts [7])
      (St.blank [7] [])).manualOrderStatus = "" := by
  refine ⟨rfl, by decide, rfl, by decide, rfl, by decide, rfl, by decide, rfl⟩

/-! ## The running-status panel -/

theorem loadRunningStatus_panel (b : Backend) (st : St) (rr : RunningResult) (ar : AccountsResult)
    (hr : b.tasksRunning = .ok rr) (hrs : rr.success = true) (ha : b.getAccounts = .ok ar) :
    (loadRunningStatus b st).runningStatus =
      match (if ar.success then ar.data else some []) with
      | some allAccounts => runningStatusPanel (rr.data.getD []) allAccounts
      | none => st.runningStatus := by
  unfold loadRunningStatus
  simp only [hr, hrs, ha, if_true]
  cases has : ar.success
  · simp [St.fetch, St.emit]
  · cases hd : ar.data <;> simp [St.fetch, St.consoleError, St.emit]

theorem foldl_append_flatMap {α : Type} (f : α → Markup) (l : List α) (init : Markup) :
    l.foldl (fun html x => html ++ f x) init = init ++ l.flatMap f := by
  induction l generalizing init with
  | nil => simp
  | cons a l ih => simp [List.foldl_cons, ih, List.flatMap_cons, List.append_assoc]

theorem runningStatusPanel_some_running (ids : List AccountId) (accounts : List Account)
    (h : ids ≠ []) :
    runningStatusPanel ids accounts =
      [.text "<div class=\"running-accounts-list\">"] ++ ids.flatMap (runningItem accounts) ++
        [.text "</div>"] := by
  have hpos : 0 < ids.length := List.length_pos.mpr h
  have hne : ids.length ≠ 0 := Nat.pos_iff_ne_zero.mp hpos
  simp only [runningStatusPanel, hpos, hne, true_or, if_true, and_false, if_false,
    foldl_append_flatMap]

theorem runningStatusPanel_none_running (accounts : List Account) (h : accounts ≠ []) :
    runningStatusPanel [] accounts =
      [.text "<div class=\"running-accounts-list\">"] ++ (accounts.take 5).flatMap stoppedItem ++
        [.text "</div>"] := by
  cases accounts with
  | nil => exact absurd rfl h
  | cons a l => simp [runningStatusPanel, foldl_append_flatMap]

theorem runningStatusPanel_empty :
    runningStatusPanel [] [] = [.text "<p>当前没有账号，请先添加账号</p>"] := by
  simp [runningStatusPanel]

theorem scriptCount_append (needle : String) (m n : Markup) :
    Markup.scriptCount needle (m ++ n) =
      Markup.scriptCount needle m + Markup.scriptCount needle n := by
  induction m with
  | nil => simp [Markup.scriptCount]
  | cons c m ih =>
    cases c with
    | text s => simp [Markup.scriptCount, ih, Nat.add_assoc]
    | value v => simp [Markup.scriptCount, ih]

theorem scriptCount_flatMap {α : Type} (needle : String) (f : α → Markup) (k : Nat)
    (h : ∀ x, Markup.scriptCount needle (f x) = k) (l : List α) :
    Markup.scriptCount needle (l.flatMap f) = l.length * k := by
  induction l with
  | nil => simp [Markup.scriptCount]
  | cons a l ih =>
    rw [List.flatMap_cons, scriptCount_append, h, ih, List.length_cons, Nat.succ_mul, Nat.add_comm]

set_option maxRecDepth 100000 in
theorem runningItem_isStopEntry (accounts : List Account) (id : AccountId) :
    IsStopEntry id (runningItem accounts id) := by
  refine ⟨⟨(runningItem accounts id).take 6,
    "</span>\n                                </div>\n                                <div class=\"account-actions\">\n                                    <button class=\"btn btn-sm btn-danger\" onclick=\"stopAccount(",
    ")\">停止</button>\n                                </div>\n                            </div>\n                        ", ?_, ?_, ?_⟩, ?_, ?_, ?_, ?_⟩
  · simp only [runningItem, List.take, List.cons_append, List.nil_append]
  · decide
  · decide
  all_goals (simp only [runningItem, Markup.scriptCount]; decide)

set_option maxRecDepth 100000 in
theorem stoppedItem_isStartEntry (account : Account) :
    IsStartEntry account.id (stoppedItem account) := by
  refine ⟨⟨(stoppedItem account).take 6,
    "</span>\n                                </div>\n                                <div class=\"account-actions\">\n                                    <button class=\"btn btn-sm btn-success\" onclick=\"startAccount(",
    ")\">启动</button>\n                                </div>\n                            </div>\n                        ", ?_, ?_, ?_⟩, ?_, ?_, ?_, ?_⟩
  · simp only [stoppedItem, List.take, List.cons_append, List.nil_append]
  · decide
  · decide
  all_goals (simp only [stoppedItem, Markup.scriptCount]; decide)

/-- C11, amended: when both responses of `loadRunningStatus` are successful the
markup of the panel is, inside its wrapper, one entry per running id in the
order returned, each ending with the stop button of that id, and then the text
of the script holds no start button at all; with no id running it is one entry
for each of the first `min 5 n` accounts of the fetched list, in list order,
each ending with the start button of that account (the no-accounts message when
the list is empty); the name and the address of an account are parts of its
entry as they are, unescaped. -/
theorem loadRunningStatus_panel_entries (b : Backend) (st : St) (rr : RunningResult)
    (ar : AccountsResult) (accounts : List Account)
    (hr : b.tasksRunning = .ok rr) (hrs : rr.success = true)
    (ha : b.getAccounts = .ok ar) (has : ar.success = true) (had : ar.data = some accounts) :
    (rr.data.getD [] ≠ [] →
      (loadRunningStatus b st).runningStatus =
        [.text "<div class=\"running-accounts-list\">"] ++
          (rr.data.getD []).flatMap (runningItem accounts) ++ [.text "</div>"] ∧
      Markup.scriptCount "stopAccount" (loadRunningStatus b st).runningStatus =
        (rr.data.getD []).length ∧
      Markup.scriptCount "startAccount" (loadRunningStatus b st).runningStatus = 0 ∧
      Markup.scriptCount "启动" (loadRunningStatus b st).runningStatus = 0) ∧
    (rr.data.getD [] = [] → accounts ≠ [] →
      (loadRunningStatus b st).runningStatus =
        [.text "<div class=\"running-accounts-list\">"] ++
          (accounts.take 5).flatMap stoppedItem ++ [.text "</div>"] ∧
      (accounts.take 5).length = min 5 accounts.length ∧
      Markup.scriptCount "startAccount" (loadRunningStatus b st).runningStatus =
        min 5 accounts.length ∧
      Markup.scriptCount "stopAccount" (loadRunningStatus b st).runningStatus = 0) ∧
    (rr.data.getD [] = [] → accounts = [] →
      (loadRunningStatus b st).runningStatus = [.text "<p>当前没有账号，请先添加账号</p>"]) ∧
    (∀ id, IsStopEntry id (runningItem accounts id)) ∧
    (∀ a : Account, IsStartEntry a.id (stoppedItem a) ∧
      Chunk.value (.str (jsOr a.name "未命名")) ∈ stoppedItem a ∧
      Chunk.value (.str (accountAddress a)) ∈ stoppedItem a) ∧
    (∀ id acc, accounts.find? (fun x => decide (x.id = id)) = some acc →
      Chunk.value (.str (jsOr acc.name "未命名")) ∈ runningItem accounts id ∧
      Chunk.value (.str (accountAddress acc)) ∈ runningItem accounts id) := by
  have hpanel : (loadRunningStatus b st).runningStatus =
      runningStatusPanel (rr.data.getD []) accounts := by
    rw [loadRunningStatus_panel b st rr ar hr hrs ha]
    simp [has, had]
  have hwrap : ∀ needle (m : Markup),
      Markup.scriptCount needle ([.text "<div class=\"running-accounts-list\">"] ++ m ++
        [.text "</div>"]) =
      occurrences needle "<div class=\"running-accounts-list\">" + Markup.scriptCount needle m +
        occurrences needle "</div>" := by
    intro needle m
    simp [scriptCount_append, Markup.scriptCount, Nat.add_assoc]
  refine ⟨?_, ?_, ?_, fun id => runningItem_isStopEntry accounts id, ?_, ?_⟩
  · intro hne
    have h := runningStatusPanel_some_running _ accounts hne
    rw [hpanel, h]
    refine ⟨rfl, ?_, ?_, ?_⟩
    · rw [hwrap, scriptCount_flatMap _ _ 1 (fun id => (runningItem_isStopEntry accounts id).2.1)]
      have h1 : occurrences "stopAccount" "<div class=\"running-accounts-list\">" = 0 := by decide
      have h2 : occurrences "stopAccount" "</div>" = 0 := by decide
      rw [h1, h2]
      simp
    · rw [hwrap, scriptCount_flatMap _ _ 0 (fun id => (runningItem_isStopEntry accounts id).2.2.2.1)]
      have h1 : occurrences "startAccount" "<div class=\"running-accounts-list\">" = 0 := by decide
      have h2 : occurrences "startAccount" "</div>" = 0 := by decide
      rw [h1, h2]
      simp
    · rw [hwrap, scriptCount_flatMap _ _ 0 (fun id => (runningItem_isStopEntry accounts id).2.2.2.2)]
      have h1 : occurrences "启动" "<div class=\"running-accounts-list\">" = 0 := by decide
      have h2 : occurrences "启动" "</div>" = 0 := by decide
      rw [h1, h2]
      simp
  · intro hnil hacc
    have h := runningStatusPanel_none_running accounts hacc
    rw [hpanel, hnil, h]
    refine ⟨rfl, List.length_take _ _, ?_, ?_⟩
    · rw [hwrap, scriptCount_flatMap _ _ 1 (fun a => (stoppedItem_isStartEntry a).2.1),
        List.length_take]
      have h1 : occurrences "startAccount" "<div class=\"running-accounts-list\">" = 0 := by decide
      have h2 : occurrences "startAccount" "</div>" = 0 := by decide
      rw [h1, h2]
      simp
    · rw [hwrap, scriptCount_flatMap _ _ 0 (fun a => (stoppedItem_isStartEntry a).2.2.2.1)]
      have h1 : occurrences "stopAccount" "<div class=\"running-accounts-list\">" = 0 := by decide
      have h2 : occurrences "stopAccount" "</div>" = 0 := by decide
      rw [h1, h2]
      simp
  · intro hnil hacc
    rw [hpanel, hnil, hacc, runningStatusPanel_empty]
  · intro a
    exact ⟨stoppedItem_isStartEntry a, by simp [stoppedItem], by simp [stoppedItem]⟩
  · intro id acc hfind
    constructor <;> simp [runningItem, hfind]

/-- C11 as amended, at a list of six accounts: with no id running the panel has
five start buttons and no stop button; with the ids 6 and 2 running it has two
stop buttons and no start button. -/
theorem loadRunningStatus_panel_entries_witness :
    Markup.scriptCount "startAccount"
      (loadRunningStatus (Backend.serving [] ⟨true, some [Account.plain 1 "a", Account.plain 2 "b",
        Account.plain 3 "c", Account.plain 4 "d", Account.plain 5 "e", Account.plain 6 "f"]⟩)
        (St.blank [] [])).runningStatus = 5 ∧
    Markup.scriptCount "stopAccount"
      (loadRunningStatus (Backend.serving [6, 2] ⟨true, some [Account.plain 1 "a", Account.plain 2 "b",
        Account.plain 3 "c", Account.plain 4 "d", Account.plain 5 "e", Account.plain 6 "f"]⟩)
        (St.blank [] [])).runningStatus = 2 ∧
    Markup.scriptCount "startAccount"
      (loadRunningStatus (Backend.serving [6, 2] ⟨true, some [Account.plain 1 "a", Account.plain 2 "b",
        Account.plain 3 "c", Account.plain 4 "d", Account.plain 5 "e", Account.plain 6 "f"]⟩)
        (St.blank [] [])).runningStatus = 0 :=
  ⟨((loadRunningStatus_panel_entries
      (Backend.serving [] ⟨true, some [Account.plain 1 "a", Account.plain 2 "b",
        Account.plain 3 "c", Account.plain 4 "d", Account.plain 5 "e", Account.plain 6 "f"]⟩)
      (St.blank [] []) ⟨true, some []⟩ _ _ rfl rfl rfl rfl rfl).2.1 rfl (by simp)).2.2.1,
   ((loadRunningStatus_panel_entries
      (Backend.serving [6, 2] ⟨true, some [Account.plain 1 "a", Account.plain 2 "b",
        Account.plain 3 "c", Account.plain 4 "d", Account.plain 5 "e", Account.plain 6 "f"]⟩)
      (St.blank [] []) ⟨true, some [6, 2]⟩ _ _ rfl rfl rfl rfl rfl).1 (by decide)).2.1,
   ((loadRunningStatus_panel_entries
      (Backend.serving [6, 2] ⟨true, some [Account.plain 1 "a", Account.plain 2 "b",
        Account.plain 3 "c", Account.plain 4 "d", Account.plain 5 "e", Account.plain 6 "f"]⟩)
      (St.blank [] []) ⟨true, some [6, 2]⟩ _ _ rfl rfl rfl rfl rfl).1 (by decide)).2.2.1⟩

set_option maxRecDepth 100000 in
/-- C11 as stated fails: with account 1 reported running and its name holding
the markup of a start button, the panel written by `loadRunningStatus` holds
that start button, complete, inside the entry of the running account. -/
theorem loadRunningStatus_name_markup_adds_start :
    (loadRunningStatus (Backend.serving [1] ⟨true, some [Account.plain 1
      "<button class=\"btn btn-sm btn-success\" onclick=\"startAccount(1)\">启动</button>"]⟩)
      (St.blank [] [])).runningAccountIds.has 1 = true ∧
    occursIn
      "<strong>账号 1: <button class=\"btn btn-sm btn-success\" onclick=\"startAccount(1)\">启动</button></strong>"
      ((loadRunningStatus (Backend.serving [1] ⟨true, some [Account.plain 1
        "<button class=\"btn btn-sm btn-success\" onclick=\"startAccount(1)\">启动</button>"]⟩)
        (St.blank [] [])).runningStatus.html Runtime.plain) = true ∧
    (loadRunningStatus (Backend.serving [1] ⟨true, some [Account.plain 1
      "<button class=\"btn btn-sm btn-success\" onclick=\"startAccount(1)\">启动</button>"]⟩)
      (St.blank [] [])).runningStatus.all Chunk.isPlain = true := by
  refine ⟨by decide, by decide, by decide⟩

theorem loadRunningStatus_refused (b : Backend) (st : St) (rr : RunningResult)
    (hr : b.tasksRunning = .ok rr) (hrs : rr.success = false) :
    (loadRunningStatus b st).runningStatus = st.runningStatus := by
  unfold loadRunningStatus
  simp [hr, hrs, St.fetch, St.emit]

/-- C12, amended: a running-ids response with `success = false` leaves the
panel as it was; an account-list response with `success = false` (after a
successful running-ids response) does not: the panel is built anew as for an
empty account list, which is the no-accounts message when no id is running and
otherwise one stop entry per running id, named after the id and with the
address unknown. -/
theorem loadRunningStatus_failure_panel (b : Backend) (st : St) :
    (∀ rr, b.tasksRunning = .ok rr → rr.success = false →
      (loadRunningStatus b st).runningStatus = st.runningStatus) ∧
    (∀ rr ar, b.tasksRunning = .ok rr → rr.success = true →
      b.getAccounts = .ok ar → ar.success = false →
      (loadRunningStatus b st).runningStatus = runningStatusPanel (rr.data.getD []) [] ∧
      (rr.data.getD [] = [] →
        (loadRunningStatus b st).runningStatus = [.text "<p>当前没有账号，请先添加账号</p>"]) ∧
      (rr.data.getD [] ≠ [] →
        (loadRunningStatus b st).runningStatus =
          [.text "<div class=\"running-accounts-list\">"] ++
            (rr.data.getD []).flatMap (fun id =>
              [.text "\n                            <div class=\"running-account-item\">\n                                <div class=\"account-info\">\n                                    <strong>账号 ",
              .value (.int id), .text ": ", .value (.str ("账号" ++ toString id)),
              .text "</strong>\n                                    <span class=\"account-address\">",
              .value (.str "未知"),
              .text "</span>\n                                </div>\n                                <div class=\"account-actions\">\n                                    <button class=\"btn btn-sm btn-danger\" onclick=\"stopAccount(",
              .value (.int id),
              .text ")\">停止</button>\n                                </div>\n                            </div>\n                        "]) ++
            [.text "</div>"])) := by
  refine ⟨fun rr hr hrs => loadRunningStatus_refused b st rr hr hrs, ?_⟩
  intro rr ar hr hrs ha has
  have hpanel : (loadRunningStatus b st).runningStatus =
      runningStatusPanel (rr.data.getD []) [] := by
    rw [loadRunningStatus_panel b st rr ar hr hrs ha]
    simp [has]
  refine ⟨hpanel, ?_, ?_⟩
  · intro hnil
    rw [hpanel, hnil, runningStatusPanel_empty]
  · intro hne
    rw [hpanel, runningStatusPanel_some_running _ _ hne]
    rfl

/-- C12 as amended, at a panel that shows one quick-start entry: a refused
running-ids response leaves that entry, a refused account-list response with
account 4 running replaces it by the stop entry of 4, and with no id running by
the no-accounts message. -/
theorem loadRunningStatus_failure_panel_witness :
    (loadRunningStatus Backend.runningRefused
      { St.blank [] [] with runningStatus := stoppedItem (Account.plain 1 "a") }).runningStatus =
      stoppedItem (Account.plain 1 "a") ∧
    (loadRunningStatus (Backend.serving [4] ⟨false, none⟩)
      { St.blank [] [] with runningStatus := stoppedItem (Account.plain 1 "a") }).runningStatus =
      [.text "<div class=\"running-accounts-list\">"] ++ runningItem [] 4 ++ [.text "</div>"] ∧
    (loadRunningStatus (Backend.serving [] ⟨false, none⟩)
      { St.blank [] [] with runningStatus := stoppedItem (Account.plain 1 "a") }).runningStatus =
      [.text "<p>当前没有账号，请先添加账号</p>"] :=
  ⟨(loadRunningStatus_failure_panel Backend.runningRefused
      { St.blank [] [] with runningStatus := stoppedItem (Account.plain 1 "a") }).1
      ⟨false, none⟩ rfl rfl,
   ((loadRunningStatus_failure_panel (Backend.serving [4] ⟨false, none⟩)
      { St.blank [] [] with runningStatus := stoppedItem (Account.plain 1 "a") }).2
      ⟨true, some [4]⟩ ⟨false, none⟩ rfl rfl rfl rfl).2.2 (by decide),
   ((loadRunningStatus_failure_panel (Backend.serving [] ⟨false, none⟩)
      { St.blank [] [] with runningStatus := stoppedItem (Account.plain 1 "a") }).2
      ⟨true, some []⟩ ⟨false, none⟩ rfl rfl rfl rfl).2.1 rfl⟩

set_option maxRecDepth 100000 in
/-- C12 as stated fails: with account 4 reported running and the account-list
response answered with `success = false`, the panel, which showed one
quick-start entry with a start button, shows the stop entry of 4 afterwards and
no start button; and with no id running it shows the no-accounts message. -/
theorem loadRunningStatus_accounts_refused_rerenders :
    (Backend.serving [4] ⟨false, none⟩).getAccounts = .ok ⟨false, none⟩ ∧
    (loadRunningStatus (Backend.serving [4] ⟨false, none⟩)
      { St.blank [] [] with runningStatus := stoppedItem (Account.plain 1 "a") }).runningStatus ≠
      ({ St.blank [] [] with runningStatus := stoppedItem (Account.plain 1 "a") } : St).runningStatus ∧
    occursIn "<strong>账号 4: 账号4</strong>"
      ((loadRunningStatus (Backend.serving [4] ⟨false, none⟩)
        { St.blank [] [] with runningStatus := stoppedItem (Account.plain 1 "a") }).runningStatus.html
        Runtime.plain) = true ∧
    occursIn "onclick=\"stopAccount(4)\">停止</button>"
      ((loadRunningStatus (Backend.serving [4] ⟨false, none⟩)
        { St.blank [] [] with runningStatus := stoppedItem (Account.plain 1 "a") }).runningStatus.html
        Runtime.plain) = true ∧
    (loadRunningStatus (Backend.serving [] ⟨false, none⟩)
      { St.blank [] [] with runningStatus := stoppedItem (Account.plain 1 "a") }).runningStatus =
      [.text "<p>当前没有账号，请先添加账号</p>"] := by
  refine ⟨rfl, by decide, by decide, by decide, by decide⟩

end Pms
